import Mathlib

/-!
# EnviroDIY ModularSensors: MaxBotix sonar and SDI-12 drivers

A shallow embedding of `MaxBotixSonar.cpp` and `SDI12Sensors.cpp`.

The drivers talk to collaborators that live outside these two files: the Arduino
`Stream` the sonar is attached to, the `SDI12` bus object, the millisecond clock and
the result sink `Sensor::verifyAndAddMeasurementResult`.  Each collaborator is a
record of what it will answer (the values its successive calls return), and every
call a driver makes is appended to a trace, so that the order and the number of the
calls can be stated.  Debug printing (`MS_DBG`) has no effect on the state and is
left out.
-/

/-! ## Arduino `String` -/

/-- The text of an Arduino `String`. -/
abbrev AString := List Char

/-- The C `isspace` test used by `String::trim`. -/
def isspace (c : Char) : Bool :=
  c = ' ' || c = '\t' || c = '\n' || c = '\x0b' || c = '\x0c' || c = '\r'

/-- Arduino `String::trim`: drops leading and trailing whitespace. -/
def trim (s : AString) : AString :=
  ((s.dropWhile isspace).reverse.dropWhile isspace).reverse

/-- Arduino `String::startsWith`: `p` is an initial segment of `s`. -/
def startsWith : AString → AString → Bool
  | _, [] => true
  | [], _ :: _ => false
  | c :: s, d :: p => c = d && startsWith s p

/-- Arduino `String::substring(left, right)`: indices are swapped when out of order and
clamped to the length. -/
def substring (s : AString) (left right : Nat) : AString :=
  let l := if left > right then right else left
  let r := if left > right then left else right
  if l ≥ s.length then [] else (s.take r).drop l

/-! ## The sensor status byte -/

/-- The statement `_sensorStatus |= mask` on a `uint8_t`. -/
def statusOr (status mask : Nat) : Nat := (status ||| mask) % 256

/-- The statement `_sensorStatus &= mask` on a `uint8_t`. -/
def statusAnd (status mask : Nat) : Nat := (status &&& mask) % 256

/-! ## The sonar's stream -/

/-- The Arduino `Stream` the sonar writes to: the bytes buffered now, and what the
successive calls of `parseInt()` and `readStringUntil()` will return. -/
structure SerialStream where
  /-- Bytes waiting in the receive buffer. -/
  rx : List Nat
  /-- Values of the coming `parseInt()` calls, as stored in an `int`. -/
  ints : List Int
  /-- Values of the coming `readStringUntil()` calls. -/
  lines : List AString
deriving DecidableEq, Repr

namespace SerialStream

/-- The call `available()`: the number of buffered bytes. -/
def available (st : SerialStream) : Int := st.rx.length

/-- The call `read()`: takes one buffered byte, `-1` when there is none. -/
def read (st : SerialStream) : Int × SerialStream :=
  match st.rx with
  | [] => (-1, st)
  | b :: rest => (b, { st with rx := rest })

/-- The call `parseInt()`: the next token, `0` when the read times out. -/
def parseInt (st : SerialStream) : Int × SerialStream :=
  match st.ints with
  | [] => (0, st)
  | v :: rest => (v, { st with ints := rest })

/-- The call `readStringUntil(terminator)`: the next line, empty when the read times
out. -/
def readStringUntil (st : SerialStream) : AString × SerialStream :=
  match st.lines with
  | [] => ([], st)
  | line :: rest => (line, { st with lines := rest })

end SerialStream

/-- The calls the sonar driver makes on its collaborators. -/
inductive SonarEvent where
  | available
  | read
  | parseInt (v : Int)
  | readStringUntil (terminator : Char)
  | digitalWrite (pin : Int) (high : Bool)
  | delayMicroseconds (us : Nat)
  | verifyAndAddMeasurementResult (resultNumber : Nat) (resultValue : Int)
deriving DecidableEq, Repr

/-- The fields of a `MaxBotixSonar` object that the driver reads or writes. -/
structure MaxBotixSonar where
  /-- The stream `_stream` points to. -/
  stream : SerialStream
  /-- The field `_triggerPin`, negative when there is no trigger. -/
  triggerPin : Int
  /-- The field `_millisMeasurementRequested` (`uint32_t`). -/
  millisMeasurementRequested : Nat
  /-- The field `_sensorStatus` (`uint8_t`). -/
  sensorStatus : Nat
  /-- The constant `HRXL_VAR_NUM` of the header. -/
  HRXL_VAR_NUM : Nat
  /-- Every call made so far, oldest first. -/
  trace : List SonarEvent
deriving DecidableEq, Repr

namespace MaxBotixSonar

/-- The values `verifyAndAddMeasurementResult` received, oldest first. -/
def sinkCalls : List SonarEvent → List (Nat × Int)
  | [] => []
  | SonarEvent.verifyAndAddMeasurementResult i v :: t => (i, v) :: sinkCalls t
  | _ :: t => sinkCalls t

/-- The number of `parseInt()` calls in a trace. -/
def parseAttempts : List SonarEvent → Nat
  | [] => 0
  | SonarEvent.parseInt _ :: t => parseAttempts t + 1
  | _ :: t => parseAttempts t

/-- A plausible reading: above 300 and none of the error values 500, 4999, 9999. -/
def acceptable (v : Int) : Prop := 300 < v ∧ v ≠ 500 ∧ v ≠ 4999 ∧ v ≠ 9999

instance (v : Int) : Decidable (acceptable v) := by unfold acceptable; infer_instance

/-- The `i`-th value `parseInt()` is going to return, `0` once the stream only times out. -/
def token (s : SerialStream) (i : Nat) : Int := s.ints.getD i 0

/-- The statement `_stream->read()`. -/
def streamRead (s : MaxBotixSonar) : MaxBotixSonar :=
  { s with stream := s.stream.read.2, trace := s.trace ++ [SonarEvent.read] }

/-- Lines 104-105: `for (uint8_t i = 0; i < junkChars; i++) _stream->read();`.  The
counter is eight bits wide and is compared as an `int`; `none` is a loop still running
when the fuel is spent. -/
def drainLoop : Nat → Nat → Int → MaxBotixSonar → Option MaxBotixSonar
  | 0, _, _, _ => none
  | fuel + 1, i, junkChars, s =>
    if (i : Int) < junkChars then drainLoop fuel ((i + 1) % 256) junkChars (streamRead s)
    else some s

/-- Lines 119-125: the trigger pulse, when a trigger pin is set. -/
def trigger (s : MaxBotixSonar) : MaxBotixSonar :=
  if s.triggerPin ≥ 0 then
    { s with trace := s.trace ++ [SonarEvent.digitalWrite s.triggerPin true,
        SonarEvent.delayMicroseconds 30, SonarEvent.digitalWrite s.triggerPin false] }
  else s

/-- Lines 129-130: `result = _stream->parseInt(); _stream->read();`. -/
def parseReading (s : MaxBotixSonar) : Int × MaxBotixSonar :=
  let r := s.stream.parseInt
  let s1 := { s with stream := r.2, trace := s.trace ++ [SonarEvent.parseInt r.1] }
  (r.1, streamRead s1)

/-- The local variables of `addSingleMeasurementResult`. -/
structure Locals where
  success : Bool
  rangeAttempts : Nat
  result : Int
deriving DecidableEq, Repr

/-- Lines 111-151: `while (success == false && rangeAttempts < 25) { ... }`. -/
def rangeLoop (s : MaxBotixSonar) (l : Locals) : MaxBotixSonar × Locals :=
  if l.success = false ∧ l.rangeAttempts < 25 then
    let r := parseReading (trigger s)
    let rangeAttempts := l.rangeAttempts + 1
    if r.1 ≤ 300 ∨ r.1 = 500 ∨ r.1 = 4999 ∨ r.1 = 9999 ∨ r.1 = 0 then
      rangeLoop r.2 { success := l.success, rangeAttempts := rangeAttempts, result := -9999 }
    else
      rangeLoop r.2 { success := true, rangeAttempts := rangeAttempts, result := r.1 }
  else (s, l)
termination_by 25 - l.rangeAttempts
decreasing_by all_goals simp_wf; omega

/-- Lines 155-165: the result goes to the sink, the time stamp is unset, bit 5 of the
status is cleared and bit 6 set. -/
def finish (s : MaxBotixSonar) (l : Locals) : Bool × MaxBotixSonar :=
  (l.success,
    { s with
      trace := s.trace ++ [SonarEvent.verifyAndAddMeasurementResult s.HRXL_VAR_NUM l.result]
      millisMeasurementRequested := 0
      sensorStatus := statusOr (statusAnd s.sensorStatus 0b11011111) 0b01000000 })

/-- The method `MaxBotixSonar::addSingleMeasurementResult` (lines 92-166).  The result is
`none` when the drain loop is still running after `fuel` rounds. -/
def addSingleMeasurementResult (fuel : Nat) (s : MaxBotixSonar) : Option (Bool × MaxBotixSonar) :=
  let l : Locals := { success := false, rangeAttempts := 0, result := -9999 }
  let junkChars := s.stream.available
  let s1 := { s with trace := s.trace ++ [SonarEvent.available] }
  let drained := if junkChars ≠ 0 then drainLoop fuel 0 junkChars s1 else some s1
  match drained with
  | none => none
  | some s2 =>
    if s2.millisMeasurementRequested > 0 then
      let r := rangeLoop s2 l
      some (finish r.1 r.2)
    else some (finish s2 l)

/-- Lines 83-87: `for(int i = 0; i < 6; i++) { String headerLine =
_stream->readStringUntil('\r'); }`; the line read is only printed. -/
def headerLoop (s : MaxBotixSonar) (i : Nat) : MaxBotixSonar :=
  if i < 6 then
    let r := s.stream.readStringUntil
    headerLoop { s with
      stream := r.2
      trace := s.trace ++ [SonarEvent.readStringUntil '\r'] } (i + 1)
  else s
termination_by 6 - i
decreasing_by simp_wf; omega

/-- The method `MaxBotixSonar::wake` (lines 62-89); `Sensor_wake` is the method
`Sensor::wake()` of the base class, which this file does not hold. -/
def wake (Sensor_wake : MaxBotixSonar → Bool × MaxBotixSonar) (s : MaxBotixSonar) :
    Bool × MaxBotixSonar :=
  let w := Sensor_wake s
  let isAwake := w.1
  (isAwake, headerLoop w.2 0)

/-- A sonar with a measurement in flight whose stream reports 256 buffered bytes. -/
def flooded : MaxBotixSonar :=
  { stream := { rx := List.replicate 256 0, ints := [712], lines := [] }
    triggerPin := -1
    millisMeasurementRequested := 1000
    sensorStatus := 0b00100000
    HRXL_VAR_NUM := 0
    trace := [] }

/-- Scenario C: a measurement is in flight and the stream returns 500, 9999, 712. -/
def scenarioC : MaxBotixSonar :=
  { stream := { rx := [], ints := [500, 9999, 712], lines := [] }
    triggerPin := -1
    millisMeasurementRequested := 1000
    sensorStatus := 0b00100000
    HRXL_VAR_NUM := 0
    trace := [] }

/-- Scenario D: a measurement is in flight and the stream returns 25 times 0. -/
def scenarioD : MaxBotixSonar :=
  { stream := { rx := [], ints := List.replicate 25 0, lines := [] }
    triggerPin := -1
    millisMeasurementRequested := 1000
    sensorStatus := 0b00100000
    HRXL_VAR_NUM := 0
    trace := [] }

/-- A sonar with no measurement in flight, one stale byte in the buffer and a clear
status byte. -/
def idleSonar : MaxBotixSonar :=
  { stream := { rx := [13], ints := [], lines := [] }
    triggerPin := -1
    millisMeasurementRequested := 0
    sensorStatus := 0
    HRXL_VAR_NUM := 0
    trace := [] }

end MaxBotixSonar

/-! ## The SDI-12 driver -/

/-- A `float` as the driver tests it: not-a-number, or a number. -/
inductive FloatVal where
  | nan
  | num (q : ℚ)
deriving DecidableEq

/-- The calls the SDI-12 driver makes on its collaborators. -/
inductive BusEvent where
  | isActive
  | begin
  | busEnd
  | clearBuffer
  | sendCommand (cmd : AString)
  | delay (ms : Nat)
  | readStringUntil (terminator : Char)
  | available
  | millis
  | read
  | parseFloat
  | verifyAndAddMeasurementResult (resultNumber : Nat) (resultValue : FloatVal)
deriving DecidableEq

/-- The bus object `_SDI12Internal`: whether it is the active one, and what its
successive reads will return. -/
structure SDI12 where
  /-- The answer of `isActive()`. -/
  active : Bool
  /-- Values of the coming `readStringUntil()` calls; the empty string on a timeout. -/
  lines : List AString
  /-- Values of the coming `parseFloat()` calls; `-9999` on a timeout. -/
  floats : List FloatVal
  /-- Value of each call of `available()`, by call number. -/
  avail : Nat → Int
  /-- The number of calls of `available()` made so far. -/
  polls : Nat

/-- The fields of an `SDI12Sensors` object that the driver reads or writes, with the
millisecond clock. -/
structure SDI12Sensors where
  /-- The member `_SDI12Internal`. -/
  SDI12Internal : SDI12
  /-- The field `_SDI12address`. -/
  SDI12address : Char
  /-- The field `_numReturnedVars` (`uint8_t`). -/
  numReturnedVars : Nat
  /-- The field `_millisMeasurementRequested` (`uint32_t`). -/
  millisMeasurementRequested : Nat
  /-- The field `_sensorStatus` (`uint8_t`). -/
  sensorStatus : Nat
  /-- The field `_sensorVendor`. -/
  sensorVendor : AString
  /-- The field `_sensorModel`. -/
  sensorModel : AString
  /-- The field `_sensorVersion`. -/
  sensorVersion : AString
  /-- The field `_sensorSerialNumber`. -/
  sensorSerialNumber : AString
  /-- Value of each call of `millis()`, by call number; read modulo `2^32`. -/
  clock : Nat → Nat
  /-- The number of calls of `millis()` made so far. -/
  clockCalls : Nat
  /-- Every call made so far, oldest first. -/
  trace : List BusEvent

namespace SDI12Sensors

/-- Appends one call to the trace. -/
def log (s : SDI12Sensors) (e : BusEvent) : SDI12Sensors :=
  { s with trace := s.trace ++ [e] }

/-- The call `_SDI12Internal.isActive()`. -/
def isActive (s : SDI12Sensors) : Bool × SDI12Sensors :=
  (s.SDI12Internal.active, log s BusEvent.isActive)

/-- The call `_SDI12Internal.begin()`: the object becomes the active one. -/
def begin (s : SDI12Sensors) : SDI12Sensors :=
  log { s with SDI12Internal := { s.SDI12Internal with active := true } } BusEvent.begin

/-- The call `_SDI12Internal.end()`: the object is no longer active. -/
def busEnd (s : SDI12Sensors) : SDI12Sensors :=
  log { s with SDI12Internal := { s.SDI12Internal with active := false } } BusEvent.busEnd

/-- The call `_SDI12Internal.clearBuffer()`. -/
def clearBuffer (s : SDI12Sensors) : SDI12Sensors := log s BusEvent.clearBuffer

/-- The call `_SDI12Internal.sendCommand(cmd)`. -/
def sendCommand (s : SDI12Sensors) (cmd : AString) : SDI12Sensors :=
  log s (BusEvent.sendCommand cmd)

/-- The call `delay(ms)`. -/
def delay (s : SDI12Sensors) (ms : Nat) : SDI12Sensors := log s (BusEvent.delay ms)

/-- The call `_SDI12Internal.readStringUntil(terminator)`. -/
def readStringUntil (s : SDI12Sensors) (terminator : Char) : AString × SDI12Sensors :=
  (s.SDI12Internal.lines.headD [],
    log { s with SDI12Internal := { s.SDI12Internal with lines := s.SDI12Internal.lines.tail } }
      (BusEvent.readStringUntil terminator))

/-- The call `_SDI12Internal.available()`. -/
def available (s : SDI12Sensors) : Int × SDI12Sensors :=
  (s.SDI12Internal.avail s.SDI12Internal.polls,
    log { s with SDI12Internal := { s.SDI12Internal with polls := s.SDI12Internal.polls + 1 } }
      BusEvent.available)

/-- The call `millis()`, a `uint32_t`. -/
def millis (s : SDI12Sensors) : Nat × SDI12Sensors :=
  (s.clock s.clockCalls % 2 ^ 32, log { s with clockCalls := s.clockCalls + 1 } BusEvent.millis)

/-- The call `_SDI12Internal.read()`, whose value the driver drops. -/
def read (s : SDI12Sensors) : SDI12Sensors := log s BusEvent.read

/-- The call `_SDI12Internal.parseFloat()`. -/
def parseFloat (s : SDI12Sensors) : FloatVal × SDI12Sensors :=
  (s.SDI12Internal.floats.headD (FloatVal.num (-9999)),
    log { s with SDI12Internal := { s.SDI12Internal with floats := s.SDI12Internal.floats.tail } }
      BusEvent.parseFloat)

/-- The call `verifyAndAddMeasurementResult(resultNumber, resultValue)` of the base class. -/
def verifyAndAddMeasurementResult (s : SDI12Sensors) (resultNumber : Nat)
    (resultValue : FloatVal) : SDI12Sensors :=
  log s (BusEvent.verifyAndAddMeasurementResult resultNumber resultValue)

/-- The opening of lines 141-148, 240-247 and 327-334:
`bool wasActive = _SDI12Internal.isActive(); if (!wasActive) _SDI12Internal.begin();
_SDI12Internal.clearBuffer();`, giving `wasActive` and the new state. -/
def activate (s : SDI12Sensors) : Bool × SDI12Sensors :=
  let a := isActive s
  let wasActive := a.1
  let s1 := if !wasActive then begin a.2 else a.2
  (wasActive, clearBuffer s1)

/-- Lines 176, 278 and 369: `if (!wasActive) _SDI12Internal.end();`. -/
def release (wasActive : Bool) (s : SDI12Sensors) : SDI12Sensors :=
  if !wasActive then busEnd s else s

/-- Lines 93-129: `while (!didAcknowledge && ntries < 5) { ... }`, with `ntries` a
`uint8_t`. -/
def ackLoop (s : SDI12Sensors) (myCommand : AString) (didAcknowledge : Bool) (ntries : Nat) :
    Bool × SDI12Sensors :=
  if didAcknowledge = false ∧ ntries < 5 then
    let s1 := delay (sendCommand s myCommand) 30
    let r := readStringUntil s1 '\n'
    let sdiResponse := trim r.1
    let s2 := clearBuffer r.2
    let didAcknowledge : Bool :=
      if sdiResponse = [s2.SDI12address] then true
      else if startsWith sdiResponse [s2.SDI12address] then true
      else false
    ackLoop s2 myCommand didAcknowledge ((ntries + 1) % 256)
  else (didAcknowledge, s)
termination_by 5 - ntries
decreasing_by simp_wf; omega

/-- The method `SDI12Sensors::requestSensorAcknowledgement` (lines 81-132). -/
def requestSensorAcknowledgement (s : SDI12Sensors) : Bool × SDI12Sensors :=
  let s1 := clearBuffer s
  let myCommand : AString := [s1.SDI12address] ++ ['!']
  ackLoop s1 myCommand false 0

/-- The method `SDI12Sensors::getSensorInfo` (lines 136-200).  The locals `sdi12Address`
and `sdi12Version` are only printed and are left out. -/
def getSensorInfo (s : SDI12Sensors) : Bool × SDI12Sensors :=
  let a := activate s
  let wasActive := a.1
  let s2 := a.2
  let ack := requestSensorAcknowledgement s2
  if !ack.1 then (false, ack.2)
  else
    let myCommand : AString := [ack.2.SDI12address] ++ ['I', '!']
    let s3 := delay (sendCommand ack.2 myCommand) 30
    let r := readStringUntil s3 '\n'
    let sdiResponse := trim r.1
    let s4 := clearBuffer r.2
    let s5 := release wasActive s4
    if sdiResponse.length > 1 then
      (true, { s5 with
        sensorVendor := trim (substring sdiResponse 3 11)
        sensorModel := trim (substring sdiResponse 11 17)
        sensorVersion := trim (substring sdiResponse 17 20)
        sensorSerialNumber := trim (substring sdiResponse 20 sdiResponse.length) })
    else (false, s5)

/-- The method `SDI12Sensors::startSingleMeasurement` (lines 230-317); the three
`goto finish` all reach the status update of lines 312-314. -/
def startSingleMeasurement (s : SDI12Sensors) : Bool × SDI12Sensors :=
  let a := activate s
  let wasActive := a.1
  let s2 := a.2
  let ack := requestSensorAcknowledgement s2
  let body : Bool × SDI12Sensors :=
    if !ack.1 then (false, { ack.2 with millisMeasurementRequested := 0 })
    else
      let startCommand : AString := [ack.2.SDI12address] ++ ['C', '!']
      let s3 := delay (sendCommand ack.2 startCommand) 30
      let r := readStringUntil s3 '\n'
      let sdiResponse := trim r.1
      let s4 := clearBuffer (clearBuffer r.2)
      let s5 := release wasActive s4
      if sdiResponse.length > 0 then
        let m := millis s5
        (true, { m.2 with millisMeasurementRequested := m.1 })
      else (false, { s5 with millisMeasurementRequested := 0 })
  (body.1, { body.2 with
    sensorStatus := statusAnd (statusOr body.2.sensorStatus 0b00100000) 0b10111111 })

/-- Line 346: `while (_SDI12Internal.available() < 3 && (millis() - startTime) < 1500) {}`
in `uint32_t` arithmetic; `none` is a loop still running when the fuel is spent. -/
def waitLoop : Nat → Nat → SDI12Sensors → Option SDI12Sensors
  | 0, _, _ => none
  | fuel + 1, startTime, s =>
    let a := available s
    if a.1 < 3 then
      let m := millis a.2
      if (m.1 + 2 ^ 32 - startTime) % 2 ^ 32 < 1500 then waitLoop fuel startTime m.2
      else some m.2
    else some a.2

/-- Lines 350-358: `for (int i = 0; i < _numReturnedVars; i++) { ... }`. -/
def resultLoop (s : SDI12Sensors) (i : Nat) : SDI12Sensors :=
  if i < s.numReturnedVars then
    let r := parseFloat s
    let result : FloatVal :=
      if r.1 = FloatVal.num (-9999) ∨ r.1 = FloatVal.nan then FloatVal.num (-9999) else r.1
    resultLoop (verifyAndAddMeasurementResult r.2 i result) (i + 1)
  else s
termination_by s.numReturnedVars - i
decreasing_by
  simp_wf
  simp only [verifyAndAddMeasurementResult, parseFloat, log]
  omega

/-- The method `SDI12Sensors::addSingleMeasurementResult` (lines 320-387).  The result is
`none` when the wait loop is still running after `fuel` rounds. -/
def addSingleMeasurementResult (fuel : Nat) (s : SDI12Sensors) : Option (Bool × SDI12Sensors) :=
  if s.millisMeasurementRequested > 0 then
    let a := activate s
    let wasActive := a.1
    let s2 := a.2
    let getDataCommand : AString := [s2.SDI12address] ++ ['D', '0', '!']
    let s3 := delay (sendCommand s2 getDataCommand) 30
    let m := millis s3
    match waitLoop fuel m.1 m.2 with
    | none => none
    | some s4 =>
      let s5 := read s4
      let s6 := resultLoop s5 0
      let s7 := clearBuffer s6
      let s8 := release wasActive s7
      some (true, { s8 with
        millisMeasurementRequested := 0
        sensorStatus := statusOr (statusAnd s8.sensorStatus 0b11011111) 0b01000000 })
  else some (false, s)

/-- The `i`-th line `readStringUntil()` is going to return, empty on a timeout. -/
def reply (b : SDI12) (i : Nat) : AString := b.lines.getD i []

/-- The `i`-th value `parseFloat()` is going to return, `-9999` on a timeout. -/
def parsed (b : SDI12) (i : Nat) : FloatVal := b.floats.getD i (FloatVal.num (-9999))

/-- A reply line acknowledges an address when its trimmed text starts with it. -/
def acknowledges (address : Char) (line : AString) : Prop :=
  startsWith (trim line) [address] = true

instance (address : Char) (line : AString) : Decidable (acknowledges address line) := by
  unfold acknowledges; infer_instance

/-- The calls of `k` rounds of the acknowledgement loop. -/
def ackRounds (cmd : AString) : Nat → List BusEvent
  | 0 => []
  | k + 1 => [BusEvent.sendCommand cmd, BusEvent.delay 30, BusEvent.readStringUntil '\n',
      BusEvent.clearBuffer] ++ ackRounds cmd k

/-- The calls of the opening `activate`. -/
def activateCalls (wasActive : Bool) : List BusEvent :=
  BusEvent.isActive :: (if wasActive then [] else [BusEvent.begin]) ++ [BusEvent.clearBuffer]

/-- The calls of the closing `release`. -/
def releaseCalls (wasActive : Bool) : List BusEvent :=
  if wasActive then [] else [BusEvent.busEnd]

/-- The calls of sending `cmd` and reading the line that answers it. -/
def exchangeCalls (cmd : AString) : List BusEvent :=
  [BusEvent.sendCommand cmd, BusEvent.delay 30, BusEvent.readStringUntil '\n']

/-- The value line 354 turns a parsed value into: `-9999` for not-a-number and for
`-9999` itself. -/
def normalised (v : FloatVal) : FloatVal :=
  if v = FloatVal.num (-9999) ∨ v = FloatVal.nan then FloatVal.num (-9999) else v

/-- The calls of `n` rounds of the result loop, starting at index `i` on the values `fs`. -/
def resultRounds : List FloatVal → Nat → Nat → List BusEvent
  | _, _, 0 => []
  | fs, i, n + 1 =>
    [BusEvent.parseFloat,
      BusEvent.verifyAndAddMeasurementResult i (normalised (fs.headD (FloatVal.num (-9999))))]
      ++ resultRounds fs.tail (i + 1) n

/-- The calls of `j` rounds of the wait loop in which both tests were made. -/
def pollRounds : Nat → List BusEvent
  | 0 => []
  | j + 1 => [BusEvent.available, BusEvent.millis] ++ pollRounds j

/-- The values `verifyAndAddMeasurementResult` received, oldest first. -/
def sinkCalls : List BusEvent → List (Nat × FloatVal)
  | [] => []
  | BusEvent.verifyAndAddMeasurementResult i v :: t => (i, v) :: sinkCalls t
  | _ :: t => sinkCalls t

/-- The commands sent on the bus, oldest first. -/
def sentCommands : List BusEvent → List AString
  | [] => []
  | BusEvent.sendCommand cmd :: t => cmd :: sentCommands t
  | _ :: t => sentCommands t

/-- The test of the wait loop at its `j`-th round, for a driver `s` entering the loop
with the start time `startTime`: fewer than 3 bytes are there and less than 1500 ms have
gone by. -/
def keepsWaiting (s : SDI12Sensors) (startTime : Nat) (j : Nat) : Prop :=
  s.SDI12Internal.avail (s.SDI12Internal.polls + j) < 3 ∧
    (s.clock (s.clockCalls + j) % 2 ^ 32 + 2 ^ 32 - startTime) % 2 ^ 32 < 1500

instance (s : SDI12Sensors) (startTime j : Nat) : Decidable (keepsWaiting s startTime j) := by
  unfold keepsWaiting; infer_instance

/-- The constructor taking `char SDI12address` (lines 18-27): `_SDI12address =
SDI12address;` on the object `base` that the initialisers of lines 21-24 have built. -/
def ofChar (base : SDI12Sensors) (SDI12address : Char) : SDI12Sensors :=
  { base with SDI12address := SDI12address }

/-- The constructor taking `char *SDI12address` (lines 28-37): `_SDI12address =
*SDI12address;`, the first character of the C string, its closing NUL when the string is
empty. -/
def ofString (base : SDI12Sensors) (SDI12address : AString) : SDI12Sensors :=
  { base with SDI12address := SDI12address.headD (Char.ofNat 0) }

/-- The constructor taking `int SDI12address` (lines 38-47): `_SDI12address =
SDI12address + '0';`, the sum cut to the eight bits of a `char`. -/
def ofInt (base : SDI12Sensors) (SDI12address : Int) : SDI12Sensors :=
  { base with SDI12address := Char.ofNat (((SDI12address + ('0'.toNat : Int)) % 256).toNat) }

/-- The method `addSingleMeasurementResult` called `n + 1` times in a row. -/
def addSingleMeasurementResultTimes (fuel : Nat) : Nat → SDI12Sensors → Option (Bool × SDI12Sensors)
  | 0, s => addSingleMeasurementResult fuel s
  | n + 1, s =>
    match addSingleMeasurementResult fuel s with
    | none => none
    | some r => addSingleMeasurementResultTimes fuel n r.2

/-- A freshly built driver at address `'0'` with two variables, on a bus that is not
active, whose sensor never answers; the clock stands at 5000 ms. -/
def silentSensor : SDI12Sensors :=
  { SDI12Internal := { active := false, lines := [], floats := [], avail := fun _ => 0, polls := 0 }
    SDI12address := '0'
    numReturnedVars := 2
    millisMeasurementRequested := 0
    sensorStatus := 0
    sensorVendor := []
    sensorModel := []
    sensorVersion := []
    sensorSerialNumber := []
    clock := fun _ => 5000
    clockCalls := 0
    trace := [] }

/-- Scenario A: the sensor at address `'0'` answers the first command with `"0\r\n"`. -/
def scenarioA : SDI12Sensors :=
  { silentSensor with
    SDI12Internal := { silentSensor.SDI12Internal with lines := [['0', '\r', '\n']] } }

/-- Scenario E: the sensor acknowledges, and its info reply is one character long. -/
def scenarioE : SDI12Sensors :=
  { silentSensor with
    SDI12Internal := { silentSensor.SDI12Internal with
      lines := [['0', '\r', '\n'], ['0', '\r']] } }

/-- A sensor that acknowledges and sends a full info reply: address, version 13, vendor
`DECAGON`, model `5TM`, version `365`, serial `A12`. -/
def identified : SDI12Sensors :=
  { silentSensor with
    SDI12Internal := { silentSensor.SDI12Internal with
      lines := [['0', '\r'], "013DECAGON 5TM   365A12".toList] } }

/-- The sensor of `identified`, its info reply sent with two blanks before it and a
carriage return after it. -/
def identifiedPadded : SDI12Sensors :=
  { silentSensor with
    SDI12Internal := { silentSensor.SDI12Internal with
      lines := [['0', '\r'], "  013DECAGON 5TM   365A12\r".toList] } }

/-- A sensor that acknowledges and answers the info command with `013` only. -/
def tersely : SDI12Sensors :=
  { silentSensor with
    SDI12Internal := { silentSensor.SDI12Internal with
      lines := [['0', '\r'], ['0', '1', '3', '\r']] } }

/-- A sensor that acknowledges and accepts the measurement command, asked at the very
millisecond at which the 32-bit clock rolls over to 0. -/
def rollover : SDI12Sensors :=
  { silentSensor with
    SDI12Internal := { silentSensor.SDI12Internal with
      lines := [['0', '\r'], ['0', '0', '0', '1', '2', '\r']] }
    clock := fun _ => 2 ^ 32 }

/-- A measurement in flight whose data never come, the data command sent 500 ms before
the 32-bit clock rolls over, and the clock read every 600 ms. -/
def nearRollover : SDI12Sensors :=
  { silentSensor with
    millisMeasurementRequested := 4000
    sensorStatus := 0b00100000
    clock := fun n => 2 ^ 32 - 500 + 600 * n }

/-- Scenario B: a measurement is in flight, the data are there at the first look, and the
float parser returns 12.3 and 45.6. -/
def scenarioB : SDI12Sensors :=
  { silentSensor with
    SDI12Internal := { silentSensor.SDI12Internal with
      floats := [FloatVal.num (123 / 10), FloatVal.num (456 / 10)]
      avail := fun _ => 11 }
    millisMeasurementRequested := 4000
    sensorStatus := 0b00100000 }

end SDI12Sensors

/-! ## The sonar: lemmas -/

namespace MaxBotixSonar

theorem sinkCalls_append (t u : List SonarEvent) :
    sinkCalls (t ++ u) = sinkCalls t ++ sinkCalls u := by
  induction t with
  | nil => rfl
  | cons e t ih => cases e <;> simp [sinkCalls, ih]

theorem parseAttempts_append (t u : List SonarEvent) :
    parseAttempts (t ++ u) = parseAttempts t + parseAttempts u := by
  induction t with
  | nil => simp [parseAttempts]
  | cons e t ih =>
    cases e
    all_goals simp [parseAttempts, ih]
    omega

theorem rejected_iff (v : Int) :
    (v ≤ 300 ∨ v = 500 ∨ v = 4999 ∨ v = 9999 ∨ v = 0) ↔ ¬ acceptable v := by
  unfold acceptable
  omega

theorem token_tail (st : SerialStream) (i : Nat) :
    token st.parseInt.2 i = token st (i + 1) := by
  unfold token SerialStream.parseInt
  cases h : st.ints <;> simp [h]

theorem token_zero (st : SerialStream) : st.parseInt.1 = token st 0 := by
  unfold token SerialStream.parseInt
  cases h : st.ints <;> simp

theorem ints_parseInt (st : SerialStream) : st.parseInt.2.ints = st.ints.drop 1 := by
  unfold SerialStream.parseInt
  cases h : st.ints <;> simp [h]

theorem ints_read (st : SerialStream) : st.read.2.ints = st.ints := by
  unfold SerialStream.read
  cases h : st.rx <;> simp

/-- One round of the retry loop up to the test of the reading. -/
theorem step_facts (s : MaxBotixSonar) :
    (parseReading (trigger s)).1 = token s.stream 0 ∧
    (parseReading (trigger s)).2.stream.ints = s.stream.ints.drop 1 ∧
    (∀ i, token (parseReading (trigger s)).2.stream i = token s.stream (i + 1)) ∧
    parseAttempts (parseReading (trigger s)).2.trace = parseAttempts s.trace + 1 ∧
    sinkCalls (parseReading (trigger s)).2.trace = sinkCalls s.trace ∧
    (parseReading (trigger s)).2.triggerPin = s.triggerPin ∧
    (parseReading (trigger s)).2.millisMeasurementRequested = s.millisMeasurementRequested ∧
    (parseReading (trigger s)).2.sensorStatus = s.sensorStatus ∧
    (parseReading (trigger s)).2.HRXL_VAR_NUM = s.HRXL_VAR_NUM := by
  have hst : (trigger s).stream = s.stream := by
    unfold trigger; split <;> rfl
  have hpa : parseAttempts (trigger s).trace = parseAttempts s.trace := by
    unfold trigger; split <;> simp [parseAttempts_append, parseAttempts]
  have hsc : sinkCalls (trigger s).trace = sinkCalls s.trace := by
    unfold trigger; split <;> simp [sinkCalls_append, sinkCalls]
  have hrest : (trigger s).triggerPin = s.triggerPin ∧
      (trigger s).millisMeasurementRequested = s.millisMeasurementRequested ∧
      (trigger s).sensorStatus = s.sensorStatus ∧
      (trigger s).HRXL_VAR_NUM = s.HRXL_VAR_NUM := by
    unfold trigger; split <;> simp
  refine ⟨?_, ?_, ?_, ?_, ?_, ?_⟩
  · simp [parseReading, hst, token_zero]
  · simp [parseReading, streamRead, ints_read, ints_parseInt, hst]
  · intro i
    have h1 : (parseReading (trigger s)).2.stream.ints = s.stream.parseInt.2.ints := by
      simp [parseReading, streamRead, ints_read, hst]
    have h2 := token_tail s.stream i
    unfold token at h2 ⊢
    rw [h1, h2]
  · simp [parseReading, streamRead, parseAttempts_append, parseAttempts, hpa]
  · simp [parseReading, streamRead, sinkCalls_append, sinkCalls, hsc]
  · simpa [parseReading, streamRead] using hrest

theorem rangeLoop_done (s : MaxBotixSonar) (l : Locals)
    (h : l.success = true ∨ 25 ≤ l.rangeAttempts) : rangeLoop s l = (s, l) := by
  rw [rangeLoop]
  have : ¬ (l.success = false ∧ l.rangeAttempts < 25) := by
    rintro ⟨h1, h2⟩
    rcases h with h | h
    · rw [h1] at h; cases h
    · omega
  rw [if_neg this]

theorem rangeLoop_accept (s : MaxBotixSonar) (a : Nat) (res : Int) (ha : a < 25)
    (hacc : acceptable (token s.stream 0)) :
    rangeLoop s ⟨false, a, res⟩
      = ((parseReading (trigger s)).2, ⟨true, a + 1, token s.stream 0⟩) := by
  have h1 := (step_facts s).1
  have hcond : ¬ ((parseReading (trigger s)).1 ≤ 300 ∨ (parseReading (trigger s)).1 = 500 ∨
      (parseReading (trigger s)).1 = 4999 ∨ (parseReading (trigger s)).1 = 9999 ∨
      (parseReading (trigger s)).1 = 0) := by
    rw [rejected_iff, h1]; simpa using hacc
  rw [rangeLoop]
  simp only [ha, and_self, if_true]
  rw [if_neg hcond, rangeLoop_done _ _ (Or.inl rfl), h1]

theorem rangeLoop_reject (s : MaxBotixSonar) (a : Nat) (res : Int) (ha : a < 25)
    (hrej : ¬ acceptable (token s.stream 0)) :
    rangeLoop s ⟨false, a, res⟩
      = rangeLoop (parseReading (trigger s)).2 ⟨false, a + 1, -9999⟩ := by
  have h1 := (step_facts s).1
  have hcond : ((parseReading (trigger s)).1 ≤ 300 ∨ (parseReading (trigger s)).1 = 500 ∨
      (parseReading (trigger s)).1 = 4999 ∨ (parseReading (trigger s)).1 = 9999 ∨
      (parseReading (trigger s)).1 = 0) := by
    rw [rejected_iff, h1]; exact hrej
  rw [rangeLoop]
  simp only [ha, and_self, if_true]
  rw [if_pos hcond]

/-- The retry loop, entered with `success == false` after `a` attempts. -/
theorem rangeLoop_spec (n : Nat) : ∀ (s : MaxBotixSonar) (a : Nat), a + n = 25 →
    ∃ k, k ≤ n ∧
      (rangeLoop s ⟨false, a, -9999⟩).2.rangeAttempts = a + k ∧
      (rangeLoop s ⟨false, a, -9999⟩).1.stream.ints = s.stream.ints.drop k ∧
      parseAttempts (rangeLoop s ⟨false, a, -9999⟩).1.trace = parseAttempts s.trace + k ∧
      sinkCalls (rangeLoop s ⟨false, a, -9999⟩).1.trace = sinkCalls s.trace ∧
      (rangeLoop s ⟨false, a, -9999⟩).1.triggerPin = s.triggerPin ∧
      (rangeLoop s ⟨false, a, -9999⟩).1.millisMeasurementRequested
        = s.millisMeasurementRequested ∧
      (rangeLoop s ⟨false, a, -9999⟩).1.sensorStatus = s.sensorStatus ∧
      (rangeLoop s ⟨false, a, -9999⟩).1.HRXL_VAR_NUM = s.HRXL_VAR_NUM ∧
      (∀ i, i + 1 < k → ¬ acceptable (token s.stream i)) ∧
      (((rangeLoop s ⟨false, a, -9999⟩).2.success = true ∧ 1 ≤ k ∧
          acceptable (token s.stream (k - 1)) ∧
          (rangeLoop s ⟨false, a, -9999⟩).2.result = token s.stream (k - 1)) ∨
        ((rangeLoop s ⟨false, a, -9999⟩).2.success = false ∧ k = n ∧
          (∀ i, i < k → ¬ acceptable (token s.stream i)) ∧
          (rangeLoop s ⟨false, a, -9999⟩).2.result = -9999)) := by
  induction n with
  | zero =>
    intro s a ha
    refine ⟨0, le_refl _, ?_⟩
    rw [rangeLoop_done _ _ (Or.inr (by simp; omega))]
    simp
  | succ n ih =>
    intro s a ha
    obtain ⟨h1, h2, h3, h4, h5, h6, h7, h8, h9⟩ := step_facts s
    have hlt : a < 25 := by omega
    by_cases hacc : acceptable (token s.stream 0)
    · -- the reading is kept: the loop ends at the next test
      rw [rangeLoop_accept s a _ hlt hacc]
      refine ⟨1, by omega, rfl, h2, h4, h5, h6, h7, h8, h9, ?_, ?_⟩
      · intro i hi; omega
      · left
        exact ⟨rfl, le_refl _, hacc, rfl⟩
    · rw [rangeLoop_reject s a _ hlt hacc]
      obtain ⟨k, hk, e1, e2, e3, e4, e5, e6, e7, e8, e9, e10⟩ :=
        ih (parseReading (trigger s)).2 (a + 1) (by omega)
      refine ⟨k + 1, by omega, ?_, ?_, ?_, ?_, ?_, ?_, ?_, ?_, ?_, ?_⟩
      · rw [e1]; omega
      · rw [e2, h2]; simp [List.drop_drop]
      · rw [e3, h4]; omega
      · rw [e4, h5]
      · rw [e5, h6]
      · rw [e6, h7]
      · rw [e7, h8]
      · rw [e8, h9]
      · intro i hi
        cases i with
        | zero => exact hacc
        | succ i => rw [← h3 i]; exact e9 i (by omega)
      · rcases e10 with ⟨s1, s2, s3, s4⟩ | ⟨s1, s2, s3, s4⟩
        · left
          have hk1 : k + 1 - 1 = (k - 1) + 1 := by omega
          refine ⟨s1, by omega, ?_, ?_⟩
          · rw [hk1, ← h3]; exact s3
          · rw [hk1, ← h3]; exact s4
        · right
          refine ⟨s1, by omega, ?_, s4⟩
          intro i hi
          cases i with
          | zero => exact hacc
          | succ i => rw [← h3 i]; exact s3 i (by omega)

theorem rx_read (st : SerialStream) : st.read.2.rx = st.rx.drop 1 := by
  unfold SerialStream.read
  cases h : st.rx <;> simp [h]

/-- What `k` successive `_stream->read()` statements leave behind. -/
theorem iterate_streamRead (k : Nat) : ∀ s : MaxBotixSonar,
    (streamRead^[k] s).stream.ints = s.stream.ints ∧
    (streamRead^[k] s).stream.lines = s.stream.lines ∧
    (streamRead^[k] s).stream.rx = s.stream.rx.drop k ∧
    (streamRead^[k] s).trace = s.trace ++ List.replicate k SonarEvent.read ∧
    (streamRead^[k] s).triggerPin = s.triggerPin ∧
    (streamRead^[k] s).millisMeasurementRequested = s.millisMeasurementRequested ∧
    (streamRead^[k] s).sensorStatus = s.sensorStatus ∧
    (streamRead^[k] s).HRXL_VAR_NUM = s.HRXL_VAR_NUM := by
  induction k with
  | zero => intro s; simp
  | succ k ih =>
    intro s
    obtain ⟨h1, h2, h3, h4, h5, h6, h7, h8⟩ := ih (streamRead s)
    rw [Function.iterate_succ_apply]
    refine ⟨?_, ?_, ?_, ?_, ?_, ?_, ?_, ?_⟩
    · rw [h1]; simp [streamRead, ints_read]
    · rw [h2]; unfold streamRead SerialStream.read; cases h : s.stream.rx <;> simp [h]
    · rw [h3]; simp [streamRead, rx_read, List.drop_drop]
    · rw [h4]; simp [streamRead, List.replicate_succ]
    · rw [h5]; rfl
    · rw [h6]; rfl
    · rw [h7]; rfl
    · rw [h8]; rfl

theorem replicate_read_facts (k : Nat) :
    parseAttempts (List.replicate k SonarEvent.read) = 0 ∧
    sinkCalls (List.replicate k SonarEvent.read) = [] := by
  induction k with
  | zero => simp [parseAttempts, sinkCalls]
  | succ k ih => simp [List.replicate_succ, parseAttempts, sinkCalls, ih]

/-- The drain loop with a backlog of at most 255 bytes ends after reading all of them. -/
theorem drainLoop_spec (fuel : Nat) : ∀ (i n : Nat) (s : MaxBotixSonar),
    i ≤ n → n ≤ 255 → n - i < fuel →
    drainLoop fuel i (n : Int) s = some (streamRead^[n - i] s) := by
  induction fuel with
  | zero => intro i n s _ _ h; omega
  | succ fuel ih =>
    intro i n s hin hn hfuel
    unfold drainLoop
    by_cases hlt : i < n
    · have hc : (i : Int) < (n : Int) := by exact_mod_cast hlt
      rw [if_pos hc]
      have hmod : (i + 1) % 256 = i + 1 := by omega
      rw [hmod, ih (i + 1) n (streamRead s) (by omega) hn (by omega)]
      have : n - i = (n - (i + 1)) + 1 := by omega
      rw [this, Function.iterate_succ_apply]
    · have hc : ¬ (i : Int) < (n : Int) := by exact_mod_cast hlt
      rw [if_neg hc]
      have : n - i = 0 := by omega
      rw [this]; rfl

/-- The state in which the drain step of lines 100-106 leaves the driver. -/
theorem drain_step (fuel : Nat) (s : MaxBotixSonar)
    (hbacklog : s.stream.rx.length < 256) (hfuel : s.stream.rx.length < fuel) :
    ∃ s2, (if s.stream.available ≠ 0 then
        drainLoop fuel 0 s.stream.available { s with trace := s.trace ++ [SonarEvent.available] }
      else some { s with trace := s.trace ++ [SonarEvent.available] }) = some s2 ∧
      s2.stream.ints = s.stream.ints ∧ s2.stream.lines = s.stream.lines ∧
      s2.stream.rx = [] ∧
      s2.trace = s.trace ++ SonarEvent.available
        :: List.replicate s.stream.rx.length SonarEvent.read ∧
      s2.triggerPin = s.triggerPin ∧
      s2.millisMeasurementRequested = s.millisMeasurementRequested ∧
      s2.sensorStatus = s.sensorStatus ∧ s2.HRXL_VAR_NUM = s.HRXL_VAR_NUM := by
  by_cases h0 : s.stream.available ≠ 0
  · rw [if_pos h0]
    have := drainLoop_spec fuel 0 s.stream.rx.length
      { s with trace := s.trace ++ [SonarEvent.available] } (Nat.zero_le _) (by omega) (by omega)
    refine ⟨_, this, ?_⟩
    obtain ⟨h1, h2, h3, h4, h5, h6, h7, h8⟩ := iterate_streamRead (s.stream.rx.length - 0)
      { s with trace := s.trace ++ [SonarEvent.available] }
    refine ⟨h1, h2, ?_, ?_, h5, h6, h7, h8⟩
    · rw [h3]; simp
    · rw [h4]; simp
  · rw [if_neg h0]
    have hlen : s.stream.rx.length = 0 := by
      have : s.stream.available = 0 := by simpa using h0
      unfold SerialStream.available at this
      exact_mod_cast this
    refine ⟨_, rfl, rfl, rfl, ?_, ?_, rfl, rfl, rfl, rfl⟩
    · exact List.length_eq_zero.mp hlen
    · simp [hlen]

/-- The whole method with a measurement in flight and a backlog the drain loop can
clear: `k` readings are parsed, and the last one decides the outcome. -/
theorem inflight_spec (fuel : Nat) (s : MaxBotixSonar)
    (hflight : 0 < s.millisMeasurementRequested)
    (hbacklog : s.stream.rx.length < 256) (hfuel : s.stream.rx.length < fuel) :
    ∃ (b : Bool) (s' : MaxBotixSonar) (k : Nat) (res : Int),
      addSingleMeasurementResult fuel s = some (b, s') ∧
      parseAttempts s'.trace = parseAttempts s.trace + k ∧
      s'.stream.ints = s.stream.ints.drop k ∧
      sinkCalls s'.trace = sinkCalls s.trace ++ [(s.HRXL_VAR_NUM, res)] ∧
      1 ≤ k ∧ k ≤ 25 ∧
      (∀ i, i + 1 < k → ¬ acceptable (token s.stream i)) ∧
      ((b = true ∧ acceptable (token s.stream (k - 1)) ∧ res = token s.stream (k - 1)) ∨
        (b = false ∧ k = 25 ∧ (∀ i, i < 25 → ¬ acceptable (token s.stream i)) ∧
          res = -9999)) ∧
      s'.millisMeasurementRequested = 0 ∧
      s'.sensorStatus = statusOr (statusAnd s.sensorStatus 0b11011111) 0b01000000 := by
  obtain ⟨s2, hd, d1, d2, d3, d4, d5, d6, d7, d8⟩ := drain_step fuel s hbacklog hfuel
  obtain ⟨k, hk, e1, e2, e3, e4, e5, e6, e7, e8, e9, e10⟩ := rangeLoop_spec 25 s2 0 (by omega)
  have htok : ∀ i, token s2.stream i = token s.stream i := by
    intro i; unfold token; rw [d1]
  have hpa2 : parseAttempts s2.trace = parseAttempts s.trace := by
    rw [d4, parseAttempts_append]
    have := (replicate_read_facts s.stream.rx.length).1
    simp [parseAttempts, this]
  have hsc2 : sinkCalls s2.trace = sinkCalls s.trace := by
    rw [d4, sinkCalls_append]
    have := (replicate_read_facts s.stream.rx.length).2
    simp [sinkCalls, this]
  have hfl : s2.millisMeasurementRequested > 0 := by rw [d6]; exact hflight
  have hrun : addSingleMeasurementResult fuel s
      = some (finish (rangeLoop s2 ⟨false, 0, -9999⟩).1 (rangeLoop s2 ⟨false, 0, -9999⟩).2) := by
    unfold addSingleMeasurementResult
    simp only [hd, if_pos hfl]
  refine ⟨(rangeLoop s2 ⟨false, 0, -9999⟩).2.success,
    (finish (rangeLoop s2 ⟨false, 0, -9999⟩).1 (rangeLoop s2 ⟨false, 0, -9999⟩).2).2, k,
    (rangeLoop s2 ⟨false, 0, -9999⟩).2.result, hrun, ?_, ?_, ?_, ?_, hk, ?_, ?_, rfl, ?_⟩
  · simp [finish, parseAttempts_append, parseAttempts, e3, hpa2]
  · simp [finish, e2, d1]
  · simp [finish, sinkCalls_append, sinkCalls, e4, hsc2, e8, d8]
  · rcases e10 with ⟨_, h, _, _⟩ | ⟨_, h, _, _⟩
    · exact h
    · omega
  · intro i hi; rw [← htok]; exact e9 i hi
  · rcases e10 with ⟨s1, s2', s3, s4⟩ | ⟨s1, s2', s3, s4⟩
    · left; exact ⟨s1, by rw [← htok]; exact s3, by rw [← htok]; exact s4⟩
    · right
      refine ⟨s1, s2', ?_, s4⟩
      intro i hi; rw [← htok]; exact s3 i (by omega)
  · simp [finish, e7, d7]

/-- The whole method with no measurement in flight and a backlog the drain loop can
clear. -/
theorem idle_spec (fuel : Nat) (s : MaxBotixSonar)
    (hidle : s.millisMeasurementRequested = 0)
    (hbacklog : s.stream.rx.length < 256) (hfuel : s.stream.rx.length < fuel) :
    ∃ s' : MaxBotixSonar, addSingleMeasurementResult fuel s = some (false, s') ∧
      s'.stream.ints = s.stream.ints ∧ s'.stream.lines = s.stream.lines ∧
      s'.stream.rx = [] ∧
      s'.trace = s.trace ++ SonarEvent.available
        :: List.replicate s.stream.rx.length SonarEvent.read
        ++ [SonarEvent.verifyAndAddMeasurementResult s.HRXL_VAR_NUM (-9999)] ∧
      s'.triggerPin = s.triggerPin ∧
      s'.millisMeasurementRequested = 0 ∧
      s'.sensorStatus = statusOr (statusAnd s.sensorStatus 0b11011111) 0b01000000 ∧
      s'.HRXL_VAR_NUM = s.HRXL_VAR_NUM := by
  obtain ⟨s2, hd, d1, d2, d3, d4, d5, d6, d7, d8⟩ := drain_step fuel s hbacklog hfuel
  have hfl : ¬ s2.millisMeasurementRequested > 0 := by rw [d6, hidle]; omega
  have hrun : addSingleMeasurementResult fuel s = some (finish s2 ⟨false, 0, -9999⟩) := by
    unfold addSingleMeasurementResult
    simp only [hd, if_neg hfl]
  refine ⟨(finish s2 ⟨false, 0, -9999⟩).2, hrun, d1, d2, d3, ?_, d5, rfl, ?_, d8⟩
  · simp [finish, d4, d8]
  · simp [finish, d7]

end MaxBotixSonar

/-! ## The SDI-12 driver: lemmas -/

namespace SDI12Sensors

theorem startsWith_self (x : AString) : startsWith x x = true := by
  induction x with
  | nil => rfl
  | cons c x ih => simp [startsWith, ih]

/-- The two accepting branches of lines 109-120 together test `startsWith`. -/
theorem didAcknowledge_eq (x : AString) (a : Char) :
    (if x = [a] then true else if startsWith x [a] = true then true else false)
      = startsWith x [a] := by
  by_cases h : x = [a]
  · rw [if_pos h, h, startsWith_self]
  · rw [if_neg h]
    cases hs : startsWith x [a] <;> simp

/-- One round of the acknowledgement loop, up to the test of the reply. -/
theorem ackRound_eq (s : SDI12Sensors) (cmd : AString) :
    clearBuffer (readStringUntil (delay (sendCommand s cmd) 30) '\n').2
      = { s with
          SDI12Internal := { s.SDI12Internal with lines := s.SDI12Internal.lines.drop 1 }
          trace := s.trace ++ ackRounds cmd 1 } := by
  simp [clearBuffer, readStringUntil, delay, sendCommand, log, ackRounds]

theorem ackLoop_done (s : SDI12Sensors) (cmd : AString) (d : Bool) (ntries : Nat)
    (h : d = true ∨ 5 ≤ ntries) : ackLoop s cmd d ntries = (d, s) := by
  rw [ackLoop]
  have : ¬ (d = false ∧ ntries < 5) := by
    rintro ⟨h1, h2⟩
    rcases h with h | h
    · rw [h1] at h; cases h
    · omega
  rw [if_neg this]

theorem ackLoop_step (s : SDI12Sensors) (cmd : AString) (ntries : Nat) (h : ntries < 5) :
    ackLoop s cmd false ntries
      = ackLoop { s with
          SDI12Internal := { s.SDI12Internal with lines := s.SDI12Internal.lines.drop 1 }
          trace := s.trace ++ ackRounds cmd 1 } cmd
        (startsWith (trim (reply s.SDI12Internal 0)) [s.SDI12address]) (ntries + 1) := by
  rw [ackLoop]
  simp only [h, and_self, if_true]
  rw [ackRound_eq, didAcknowledge_eq]
  have hm : (ntries + 1) % 256 = ntries + 1 := by omega
  rw [hm]
  have hr : (readStringUntil (delay (sendCommand s cmd) 30) '\n').1 = reply s.SDI12Internal 0 := by
    simp only [readStringUntil, delay, sendCommand, log, reply]
    cases s.SDI12Internal.lines <;> simp
  rw [hr]

theorem bus_sinkCalls_append (t u : List BusEvent) :
    sinkCalls (t ++ u) = sinkCalls t ++ sinkCalls u := by
  induction t with
  | nil => rfl
  | cons e t ih => cases e <;> simp [sinkCalls, ih]

theorem sentCommands_append (t u : List BusEvent) :
    sentCommands (t ++ u) = sentCommands t ++ sentCommands u := by
  induction t with
  | nil => rfl
  | cons e t ih => cases e <;> simp [sentCommands, ih]

theorem ackRounds_facts (cmd : AString) (k : Nat) :
    sentCommands (ackRounds cmd k) = List.replicate k cmd ∧ sinkCalls (ackRounds cmd k) = [] := by
  induction k with
  | zero => simp [ackRounds, sentCommands, sinkCalls]
  | succ k ih => simp [ackRounds, sentCommands, sinkCalls, ih, List.replicate_succ]

theorem activate_eq (s : SDI12Sensors) :
    activate s = (s.SDI12Internal.active,
      { s with
        SDI12Internal := { s.SDI12Internal with active := true }
        trace := s.trace ++ activateCalls s.SDI12Internal.active }) := by
  rcases s with ⟨⟨a, l, f, av, p⟩, addr, n, ms, st, v, m, ver, ser, cl, cc, tr⟩
  cases a <;> simp [activate, isActive, begin, clearBuffer, log, activateCalls]

theorem release_eq (wasActive : Bool) (s : SDI12Sensors) (h : s.SDI12Internal.active = true) :
    release wasActive s = { s with
        SDI12Internal := { s.SDI12Internal with active := wasActive }
        trace := s.trace ++ releaseCalls wasActive } := by
  rcases s with ⟨⟨a, l, f, av, p⟩, addr, n, ms, st, v, m, ver, ser, cl, cc, tr⟩
  simp only at h
  subst h
  cases wasActive <;> simp [release, busEnd, log, releaseCalls]

/-- The acknowledgement loop, entered with `didAcknowledge == false` after `ntries`
rounds: it runs `k` rounds, and the last reply decides the outcome. -/
theorem ackLoop_spec (cmd : AString) (n : Nat) : ∀ (s : SDI12Sensors) (ntries : Nat),
    ntries + n = 5 →
    ∃ k, k ≤ n ∧
      (ackLoop s cmd false ntries).2 = { s with
          SDI12Internal := { s.SDI12Internal with lines := s.SDI12Internal.lines.drop k }
          trace := s.trace ++ ackRounds cmd k } ∧
      (∀ i, i + 1 < k → ¬ acknowledges s.SDI12address (reply s.SDI12Internal i)) ∧
      (((ackLoop s cmd false ntries).1 = true ∧ 1 ≤ k ∧
          acknowledges s.SDI12address (reply s.SDI12Internal (k - 1))) ∨
        ((ackLoop s cmd false ntries).1 = false ∧ k = n ∧
          ∀ i, i < k → ¬ acknowledges s.SDI12address (reply s.SDI12Internal i))) := by
  induction n with
  | zero =>
    intro s ntries h
    refine ⟨0, le_refl _, ?_⟩
    rw [ackLoop_done _ _ _ _ (Or.inr (by omega))]
    simp [ackRounds]
  | succ n ih =>
    intro s ntries h
    have hlt : ntries < 5 := by omega
    have hshift : ∀ i, reply { s.SDI12Internal with lines := s.SDI12Internal.lines.drop 1 } i
        = reply s.SDI12Internal (i + 1) := by
      intro i
      simp only [reply]
      cases s.SDI12Internal.lines <;> simp
    rw [ackLoop_step s cmd ntries hlt]
    by_cases hack : acknowledges s.SDI12address (reply s.SDI12Internal 0)
    · have hb : startsWith (trim (reply s.SDI12Internal 0)) [s.SDI12address] = true := hack
      rw [hb, ackLoop_done _ _ _ _ (Or.inl rfl)]
      refine ⟨1, by omega, rfl, ?_, ?_⟩
      · intro i hi; omega
      · left; exact ⟨rfl, le_refl _, hack⟩
    · have hb : startsWith (trim (reply s.SDI12Internal 0)) [s.SDI12address] = false := by
        unfold acknowledges at hack
        simpa using hack
      rw [hb]
      obtain ⟨k, hk, e1, e2, e3⟩ := ih { s with
          SDI12Internal := { s.SDI12Internal with lines := s.SDI12Internal.lines.drop 1 }
          trace := s.trace ++ ackRounds cmd 1 } (ntries + 1) (by omega)
      refine ⟨k + 1, by omega, ?_, ?_, ?_⟩
      · rw [e1]
        simp [ackRounds, List.drop_drop, Nat.add_comm]
      · intro i hi
        cases i with
        | zero => exact hack
        | succ i =>
          have := e2 i (by omega)
          rw [hshift] at this
          exact this
      · rcases e3 with ⟨r1, r2, r3⟩ | ⟨r1, r2, r3⟩
        · left
          have hk1 : k + 1 - 1 = (k - 1) + 1 := by omega
          refine ⟨r1, by omega, ?_⟩
          rw [hshift] at r3
          rw [hk1]; exact r3
        · right
          refine ⟨r1, by omega, ?_⟩
          intro i hi
          cases i with
          | zero => exact hack
          | succ i =>
            have := r3 i (by omega)
            rw [hshift] at this
            exact this

/-- The method `requestSensorAcknowledgement`: `k` commands are sent, and only the reply
lines and the trace change. -/
theorem ack_spec (s : SDI12Sensors) :
    ∃ k, 1 ≤ k ∧ k ≤ 5 ∧
      (requestSensorAcknowledgement s).2 = { s with
          SDI12Internal := { s.SDI12Internal with lines := s.SDI12Internal.lines.drop k }
          trace := s.trace ++ BusEvent.clearBuffer :: ackRounds [s.SDI12address, '!'] k } ∧
      (∀ i, i + 1 < k → ¬ acknowledges s.SDI12address (reply s.SDI12Internal i)) ∧
      (((requestSensorAcknowledgement s).1 = true ∧
          acknowledges s.SDI12address (reply s.SDI12Internal (k - 1))) ∨
        ((requestSensorAcknowledgement s).1 = false ∧ k = 5 ∧
          ∀ i, i < 5 → ¬ acknowledges s.SDI12address (reply s.SDI12Internal i))) := by
  obtain ⟨k, hk, e1, e2, e3⟩ := ackLoop_spec [s.SDI12address, '!'] 5 (clearBuffer s) 0 rfl
  have hreq : requestSensorAcknowledgement s
      = ackLoop (clearBuffer s) [s.SDI12address, '!'] false 0 := rfl
  refine ⟨k, ?_, hk, ?_, e2, ?_⟩
  · rcases e3 with ⟨_, h, _⟩ | ⟨_, h, _⟩ <;> omega
  · rw [hreq, e1]
    simp [clearBuffer, log]
  · rw [hreq]
    rcases e3 with ⟨r1, r2, r3⟩ | ⟨r1, r2, r3⟩
    · left; exact ⟨r1, r3⟩
    · right; exact ⟨r1, r2, fun i hi => r3 i (by omega)⟩

theorem exchange_eq (s : SDI12Sensors) (cmd : AString) :
    readStringUntil (delay (sendCommand s cmd) 30) '\n'
      = (reply s.SDI12Internal 0, { s with
          SDI12Internal := { s.SDI12Internal with lines := s.SDI12Internal.lines.drop 1 }
          trace := s.trace ++ exchangeCalls cmd }) := by
  simp only [readStringUntil, delay, sendCommand, log, reply, exchangeCalls]
  cases s.SDI12Internal.lines <;> simp

/-- The acknowledgement as `getSensorInfo`, `startSingleMeasurement` make it: after the
opening `activate`. -/
theorem activated_ack_spec (s : SDI12Sensors) :
    ∃ k, 1 ≤ k ∧ k ≤ 5 ∧
      (activate s).1 = s.SDI12Internal.active ∧
      (requestSensorAcknowledgement (activate s).2).2 = { s with
          SDI12Internal := { s.SDI12Internal with
            active := true, lines := s.SDI12Internal.lines.drop k }
          trace := s.trace ++ activateCalls s.SDI12Internal.active
            ++ BusEvent.clearBuffer :: ackRounds [s.SDI12address, '!'] k } ∧
      (∀ i, i + 1 < k → ¬ acknowledges s.SDI12address (reply s.SDI12Internal i)) ∧
      (((requestSensorAcknowledgement (activate s).2).1 = true ∧
          acknowledges s.SDI12address (reply s.SDI12Internal (k - 1))) ∨
        ((requestSensorAcknowledgement (activate s).2).1 = false ∧ k = 5 ∧
          ∀ i, i < 5 → ¬ acknowledges s.SDI12address (reply s.SDI12Internal i))) := by
  obtain ⟨k, hk1, hk5, e1, e2, e3⟩ := ack_spec (activate s).2
  have hact : (activate s).2 = { s with
        SDI12Internal := { s.SDI12Internal with active := true }
        trace := s.trace ++ activateCalls s.SDI12Internal.active } := by
    rw [activate_eq]
  have haddr : (activate s).2.SDI12address = s.SDI12address := by rw [hact]
  have hrep : ∀ i, reply (activate s).2.SDI12Internal i = reply s.SDI12Internal i := by
    intro i; rw [hact]; rfl
  simp only [haddr, hrep] at e1 e2 e3
  refine ⟨k, hk1, hk5, by rw [activate_eq], ?_, e2, e3⟩
  rw [e1, hact]

/-- The method `startSingleMeasurement` in its three outcomes. -/
theorem start_spec (s : SDI12Sensors) :
    ∃ k, 1 ≤ k ∧ k ≤ 5 ∧
      (∀ i, i + 1 < k → ¬ acknowledges s.SDI12address (reply s.SDI12Internal i)) ∧
      ((k = 5 ∧ (∀ i, i < 5 → ¬ acknowledges s.SDI12address (reply s.SDI12Internal i)) ∧
          startSingleMeasurement s = (false, { s with
            SDI12Internal := { s.SDI12Internal with
              active := true, lines := s.SDI12Internal.lines.drop 5 }
            millisMeasurementRequested := 0
            sensorStatus := statusAnd (statusOr s.sensorStatus 0b00100000) 0b10111111
            trace := s.trace ++ activateCalls s.SDI12Internal.active
              ++ BusEvent.clearBuffer :: ackRounds [s.SDI12address, '!'] 5 })) ∨
        (acknowledges s.SDI12address (reply s.SDI12Internal (k - 1)) ∧
          trim (reply s.SDI12Internal k) = [] ∧
          startSingleMeasurement s = (false, { s with
            SDI12Internal := { s.SDI12Internal with lines := s.SDI12Internal.lines.drop (k + 1) }
            millisMeasurementRequested := 0
            sensorStatus := statusAnd (statusOr s.sensorStatus 0b00100000) 0b10111111
            trace := s.trace ++ activateCalls s.SDI12Internal.active
              ++ BusEvent.clearBuffer :: ackRounds [s.SDI12address, '!'] k
              ++ exchangeCalls [s.SDI12address, 'C', '!']
              ++ [BusEvent.clearBuffer, BusEvent.clearBuffer]
              ++ releaseCalls s.SDI12Internal.active })) ∨
        (acknowledges s.SDI12address (reply s.SDI12Internal (k - 1)) ∧
          trim (reply s.SDI12Internal k) ≠ [] ∧
          startSingleMeasurement s = (true, { s with
            SDI12Internal := { s.SDI12Internal with lines := s.SDI12Internal.lines.drop (k + 1) }
            millisMeasurementRequested := s.clock s.clockCalls % 2 ^ 32
            clockCalls := s.clockCalls + 1
            sensorStatus := statusAnd (statusOr s.sensorStatus 0b00100000) 0b10111111
            trace := s.trace ++ activateCalls s.SDI12Internal.active
              ++ BusEvent.clearBuffer :: ackRounds [s.SDI12address, '!'] k
              ++ exchangeCalls [s.SDI12address, 'C', '!']
              ++ [BusEvent.clearBuffer, BusEvent.clearBuffer]
              ++ releaseCalls s.SDI12Internal.active
              ++ [BusEvent.millis] }))) := by
  obtain ⟨k, hk1, hk5, hw, e1, e2, e3⟩ := activated_ack_spec s
  refine ⟨k, hk1, hk5, e2, ?_⟩
  have hrepk : reply { s.SDI12Internal with
      active := true, lines := s.SDI12Internal.lines.drop k } 0 = reply s.SDI12Internal k := by
    simp [reply, List.getD_eq_getElem?_getD, List.getElem?_drop]
  rcases e3 with ⟨r1, r2⟩ | ⟨r1, r2, r3⟩
  · right
    by_cases hempty : trim (reply s.SDI12Internal k) = []
    · left
      refine ⟨r2, hempty, ?_⟩
      unfold startSingleMeasurement
      simp only [r1, e1, hw, exchange_eq, hrepk, hempty]
      rcases s with ⟨⟨a, l, f, av, p⟩, addr, n, ms, st, v, m, ver, ser, cl, cc, tr⟩
      cases a <;> simp [release, busEnd, clearBuffer, log, releaseCalls, List.drop_drop, Nat.add_comm]
    · right
      refine ⟨r2, hempty, ?_⟩
      have hpos : (trim (reply s.SDI12Internal k)).length > 0 := by
        cases h : trim (reply s.SDI12Internal k) with
        | nil => exact absurd h hempty
        | cons c t => simp
      unfold startSingleMeasurement
      simp only [r1, e1, hw, exchange_eq, hrepk, hpos]
      rcases s with ⟨⟨a, l, f, av, p⟩, addr, n, ms, st, v, m, ver, ser, cl, cc, tr⟩
      cases a <;> simp [release, busEnd, clearBuffer, log, releaseCalls, millis, List.drop_drop, Nat.add_comm]
  · left
    refine ⟨r2, r3, ?_⟩
    unfold startSingleMeasurement
    simp only [r1, e1, r2]
    simp

/-- The wait loop leaves at the first round `j` whose test fails. -/
theorem waitLoop_spec (startTime : Nat) (fuel : Nat) : ∀ (s : SDI12Sensors) (j : Nat),
    j < fuel → (∀ i, i < j → keepsWaiting s startTime i) → ¬ keepsWaiting s startTime j →
    waitLoop fuel startTime s = some { s with
      SDI12Internal := { s.SDI12Internal with polls := s.SDI12Internal.polls + (j + 1) }
      clockCalls := s.clockCalls + j
        + (if s.SDI12Internal.avail (s.SDI12Internal.polls + j) < 3 then 1 else 0)
      trace := s.trace ++ pollRounds j ++ BusEvent.available ::
        (if s.SDI12Internal.avail (s.SDI12Internal.polls + j) < 3 then [BusEvent.millis]
          else []) } := by
  induction fuel with
  | zero => intro s j h; omega
  | succ fuel ih =>
    intro s j hj hkeep hstop
    cases j with
    | zero =>
      unfold waitLoop
      unfold keepsWaiting at hstop
      simp only [Nat.add_zero] at hstop
      simp only [available, millis, log]
      by_cases ha : s.SDI12Internal.avail s.SDI12Internal.polls < 3
      · have ht : ¬ (s.clock s.clockCalls % 2 ^ 32 + 2 ^ 32 - startTime) % 2 ^ 32 < 1500 :=
          fun h => hstop ⟨ha, h⟩
        rw [if_pos ha, if_neg ht]
        simp [ha, pollRounds]
      · rw [if_neg ha]
        simp [ha, pollRounds]
    | succ j =>
      have h0 := hkeep 0 (by omega)
      unfold keepsWaiting at h0
      simp only [Nat.add_zero] at h0
      unfold waitLoop
      simp only [available, millis, log]
      rw [if_pos h0.1, if_pos h0.2, ih _ j (by omega)]
      · have e1 : s.SDI12Internal.polls + 1 + j = s.SDI12Internal.polls + (j + 1) := by omega
        have e2 : s.SDI12Internal.polls + 1 + (j + 1) = s.SDI12Internal.polls + (j + 1 + 1) := by
          omega
        have e3 : s.clockCalls + 1 + j = s.clockCalls + (j + 1) := by omega
        simp only [e1, e2, e3, pollRounds, List.append_assoc]
        rfl
      · intro i hi
        have := hkeep (i + 1) (by omega)
        unfold keepsWaiting at this ⊢
        have e1 : s.SDI12Internal.polls + 1 + i = s.SDI12Internal.polls + (i + 1) := by omega
        have e3 : s.clockCalls + 1 + i = s.clockCalls + (i + 1) := by omega
        simp only [e1, e3]
        exact this
      · intro h
        apply hstop
        unfold keepsWaiting at h ⊢
        have e1 : s.SDI12Internal.polls + 1 + j = s.SDI12Internal.polls + (j + 1) := by omega
        have e3 : s.clockCalls + 1 + j = s.clockCalls + (j + 1) := by omega
        simp only [e1, e3] at h
        exact h

theorem resultRounds_sinkCalls : ∀ (n : Nat) (fs : List FloatVal) (i : Nat),
    sinkCalls (resultRounds fs i n)
      = (List.range n).map (fun j => (i + j, normalised (fs.getD j (FloatVal.num (-9999))))) ∧
    sentCommands (resultRounds fs i n) = [] := by
  intro n
  induction n with
  | zero => intro fs i; simp [resultRounds, sinkCalls, sentCommands]
  | succ n ih =>
    intro fs i
    obtain ⟨h1, h2⟩ := ih fs.tail (i + 1)
    have hstep : resultRounds fs i (n + 1)
        = [BusEvent.parseFloat,
            BusEvent.verifyAndAddMeasurementResult i
              (normalised (fs.headD (FloatVal.num (-9999))))]
          ++ resultRounds fs.tail (i + 1) n := rfl
    constructor
    · rw [hstep, bus_sinkCalls_append, h1, List.range_succ_eq_map]
      simp only [sinkCalls, List.map_cons, List.map_map, List.cons_append, List.nil_append,
        Nat.add_zero]
      congr 1
      · cases fs <;> simp
      · apply List.map_congr_left
        intro j _
        simp only [Function.comp]
        have : i + 1 + j = i + (j + 1) := by omega
        rw [this]
        cases fs <;> simp
    · rw [hstep, sentCommands_append, h2]
      rfl

/-- The result loop from index `i` makes `_numReturnedVars - i` rounds. -/
theorem resultLoop_spec (n : Nat) : ∀ (s : SDI12Sensors) (i : Nat),
    i + n = s.numReturnedVars →
    resultLoop s i = { s with
      SDI12Internal := { s.SDI12Internal with floats := s.SDI12Internal.floats.drop n }
      trace := s.trace ++ resultRounds s.SDI12Internal.floats i n } := by
  induction n with
  | zero =>
    intro s i h
    rw [resultLoop, if_neg (by omega)]
    simp [resultRounds]
  | succ n ih =>
    intro s i h
    rw [resultLoop, if_pos (by omega)]
    simp only []
    rw [ih _ (i + 1) (by simp only [verifyAndAddMeasurementResult, parseFloat, log]; omega)]
    have hd : (parseFloat s).1 = s.SDI12Internal.floats.headD (FloatVal.num (-9999)) := rfl
    simp only [hd]
    simp [verifyAndAddMeasurementResult, parseFloat, log, resultRounds, normalised,
      List.drop_succ_cons]

/-- The method `addSingleMeasurementResult` with a measurement in flight, when the wait
loop leaves at its round `j`. -/
theorem add_spec (fuel : Nat) (s : SDI12Sensors) (j : Nat)
    (hflight : 0 < s.millisMeasurementRequested) (hj : j < fuel)
    (hkeep : ∀ i, i < j → keepsWaiting (millis s).2 (millis s).1 i)
    (hstop : ¬ keepsWaiting (millis s).2 (millis s).1 j) :
    addSingleMeasurementResult fuel s = some (true, { s with
      SDI12Internal := { s.SDI12Internal with
        floats := s.SDI12Internal.floats.drop s.numReturnedVars
        polls := s.SDI12Internal.polls + (j + 1) }
      millisMeasurementRequested := 0
      sensorStatus := statusOr (statusAnd s.sensorStatus 0b11011111) 0b01000000
      clockCalls := s.clockCalls + 1 + j
        + (if s.SDI12Internal.avail (s.SDI12Internal.polls + j) < 3 then 1 else 0)
      trace := s.trace ++ activateCalls s.SDI12Internal.active
        ++ [BusEvent.sendCommand [s.SDI12address, 'D', '0', '!'], BusEvent.delay 30,
          BusEvent.millis]
        ++ pollRounds j
        ++ BusEvent.available ::
          (if s.SDI12Internal.avail (s.SDI12Internal.polls + j) < 3 then [BusEvent.millis]
            else [])
        ++ [BusEvent.read]
        ++ resultRounds s.SDI12Internal.floats 0 s.numReturnedVars
        ++ [BusEvent.clearBuffer]
        ++ releaseCalls s.SDI12Internal.active }) := by
  have hw := waitLoop_spec (s.clock s.clockCalls % 2 ^ 32) fuel
    (millis (delay (sendCommand (activate s).2 [s.SDI12address, 'D', '0', '!']) 30)).2 j hj
    (by
      intro i hi
      have := hkeep i hi
      rw [activate_eq]
      exact this)
    (by
      intro h
      apply hstop
      rw [activate_eq] at h
      exact h)
  unfold addSingleMeasurementResult
  rw [if_pos hflight]
  have haddr : (activate s).2.SDI12address = s.SDI12address := by rw [activate_eq]
  have hm1 : (millis (delay (sendCommand (activate s).2 [s.SDI12address, 'D', '0', '!']) 30)).1
      = s.clock s.clockCalls % 2 ^ 32 := by rw [activate_eq]; rfl
  simp only [haddr, List.singleton_append, hm1, hw]
  rw [resultLoop_spec s.numReturnedVars _ 0 (by rw [activate_eq]; simp [read, millis, delay, sendCommand, log])]
  rw [activate_eq]
  rcases s with ⟨⟨a, l, f, av, p⟩, addr, n, ms, st, v, m, ver, ser, cl, cc, tr⟩
  cases a <;> simp [release, busEnd, clearBuffer, read, millis, delay, sendCommand, log, releaseCalls]

/-- The method `getSensorInfo` in its three outcomes. -/
theorem info_spec (s : SDI12Sensors) :
    ∃ k, 1 ≤ k ∧ k ≤ 5 ∧
      (∀ i, i + 1 < k → ¬ acknowledges s.SDI12address (reply s.SDI12Internal i)) ∧
      ((k = 5 ∧ (∀ i, i < 5 → ¬ acknowledges s.SDI12address (reply s.SDI12Internal i)) ∧
          getSensorInfo s = (false, { s with
            SDI12Internal := { s.SDI12Internal with
              active := true, lines := s.SDI12Internal.lines.drop 5 }
            trace := s.trace ++ activateCalls s.SDI12Internal.active
              ++ BusEvent.clearBuffer :: ackRounds [s.SDI12address, '!'] 5 })) ∨
        (acknowledges s.SDI12address (reply s.SDI12Internal (k - 1)) ∧
          (trim (reply s.SDI12Internal k)).length ≤ 1 ∧
          getSensorInfo s = (false, { s with
            SDI12Internal := { s.SDI12Internal with lines := s.SDI12Internal.lines.drop (k + 1) }
            trace := s.trace ++ activateCalls s.SDI12Internal.active
              ++ BusEvent.clearBuffer :: ackRounds [s.SDI12address, '!'] k
              ++ exchangeCalls [s.SDI12address, 'I', '!']
              ++ [BusEvent.clearBuffer]
              ++ releaseCalls s.SDI12Internal.active })) ∨
        (acknowledges s.SDI12address (reply s.SDI12Internal (k - 1)) ∧
          1 < (trim (reply s.SDI12Internal k)).length ∧
          getSensorInfo s = (true, { s with
            SDI12Internal := { s.SDI12Internal with lines := s.SDI12Internal.lines.drop (k + 1) }
            sensorVendor := trim (substring (trim (reply s.SDI12Internal k)) 3 11)
            sensorModel := trim (substring (trim (reply s.SDI12Internal k)) 11 17)
            sensorVersion := trim (substring (trim (reply s.SDI12Internal k)) 17 20)
            sensorSerialNumber := trim (substring (trim (reply s.SDI12Internal k)) 20
              (trim (reply s.SDI12Internal k)).length)
            trace := s.trace ++ activateCalls s.SDI12Internal.active
              ++ BusEvent.clearBuffer :: ackRounds [s.SDI12address, '!'] k
              ++ exchangeCalls [s.SDI12address, 'I', '!']
              ++ [BusEvent.clearBuffer]
              ++ releaseCalls s.SDI12Internal.active }))) := by
  obtain ⟨k, hk1, hk5, hw, e1, e2, e3⟩ := activated_ack_spec s
  refine ⟨k, hk1, hk5, e2, ?_⟩
  have hrepk : reply { s.SDI12Internal with
      active := true, lines := s.SDI12Internal.lines.drop k } 0 = reply s.SDI12Internal k := by
    simp [reply, List.getD_eq_getElem?_getD, List.getElem?_drop]
  rcases e3 with ⟨r1, r2⟩ | ⟨r1, r2, r3⟩
  · right
    by_cases hlen : (trim (reply s.SDI12Internal k)).length > 1
    · right
      refine ⟨r2, hlen, ?_⟩
      unfold getSensorInfo
      simp only [r1, e1, hw, exchange_eq, hrepk, hlen]
      rcases s with ⟨⟨a, l, f, av, p⟩, addr, n, ms, st, v, m, ver, ser, cl, cc, tr⟩
      cases a <;> simp [release, busEnd, clearBuffer, log, releaseCalls, List.drop_drop, Nat.add_comm]
    · left
      refine ⟨r2, by omega, ?_⟩
      unfold getSensorInfo
      simp only [r1, e1, hw, exchange_eq, hrepk, hlen]
      rcases s with ⟨⟨a, l, f, av, p⟩, addr, n, ms, st, v, m, ver, ser, cl, cc, tr⟩
      cases a <;> simp [release, busEnd, clearBuffer, log, releaseCalls, List.drop_drop, Nat.add_comm]
  · left
    refine ⟨r2, r3, ?_⟩
    unfold getSensorInfo
    simp only [r1, e1, r2]
    simp

theorem status_requested (x : Nat) :
    (statusAnd (statusOr x 0b00100000) 0b10111111).testBit 5 = true ∧
    (statusAnd (statusOr x 0b00100000) 0b10111111).testBit 6 = false := by
  have h256 : (256 : Nat) = 2 ^ 8 := by norm_num
  unfold statusAnd statusOr
  simp only [h256, Nat.testBit_mod_two_pow, Nat.testBit_land, Nat.testBit_lor]
  have b1 : Nat.testBit 32 5 = true := by decide
  have b2 : Nat.testBit 191 5 = true := by decide
  have b3 : Nat.testBit 191 6 = false := by decide
  simp [b1, b2, b3]

theorem status_complete (x : Nat) :
    (statusOr (statusAnd x 0b11011111) 0b01000000).testBit 5 = false ∧
    (statusOr (statusAnd x 0b11011111) 0b01000000).testBit 6 = true := by
  have h256 : (256 : Nat) = 2 ^ 8 := by norm_num
  unfold statusAnd statusOr
  simp only [h256, Nat.testBit_mod_two_pow, Nat.testBit_land, Nat.testBit_lor]
  have b1 : Nat.testBit 223 5 = false := by decide
  have b2 : Nat.testBit 64 5 = false := by decide
  have b3 : Nat.testBit 64 6 = true := by decide
  simp [b1, b2, b3]

/-- A loop test that fails at some round fails at a first round. -/
theorem first_stop (P : Nat → Prop) [DecidablePred P] (fuel j : Nat) (hj : j < fuel)
    (hstop : ¬ P j) : ∃ j', j' < fuel ∧ (∀ i, i < j' → P i) ∧ ¬ P j' := by
  have hex : ∃ n, ¬ P n := ⟨j, hstop⟩
  refine ⟨Nat.find hex, ?_, ?_, Nat.find_spec hex⟩
  · exact lt_of_le_of_lt (Nat.find_min' hex hstop) hj
  · intro i hi
    by_contra h
    exact Nat.find_min hex hi h

theorem calls_facts (wasActive : Bool) (j : Nat) :
    sinkCalls (activateCalls wasActive) = [] ∧ sentCommands (activateCalls wasActive) = [] ∧
    sinkCalls (releaseCalls wasActive) = [] ∧ sentCommands (releaseCalls wasActive) = [] ∧
    sinkCalls (pollRounds j) = [] ∧ sentCommands (pollRounds j) = [] := by
  refine ⟨?_, ?_, ?_, ?_, ?_, ?_⟩
  · cases wasActive <;> rfl
  · cases wasActive <;> rfl
  · cases wasActive <;> rfl
  · cases wasActive <;> rfl
  · induction j with
    | zero => rfl
    | succ j ih => simpa [pollRounds, sinkCalls] using ih
  · induction j with
    | zero => rfl
    | succ j ih => simpa [pollRounds, sentCommands] using ih

end SDI12Sensors

/-! ## Further lemmas -/

theorem substring_eq_slice (r : AString) (a b : Nat) (h : a ≤ b) :
    substring r a b = (r.take b).drop a := by
  unfold substring
  have hab : ¬ a > b := by omega
  simp only [hab, if_false]
  split
  · rename_i hlen
    symm
    apply List.drop_eq_nil_of_le
    rw [List.length_take]
    omega
  · rfl

theorem substring_to_end (r : AString) (a : Nat) :
    substring r a r.length = r.drop a := by
  unfold substring
  by_cases h : a > r.length
  · simp only [h, if_true, ge_iff_le, le_refl]
    symm
    apply List.drop_eq_nil_of_le
    omega
  · simp only [h, if_false]
    split
    · symm
      apply List.drop_eq_nil_of_le
      omega
    · rw [List.take_length]

theorem trim_nil : trim [] = [] := rfl

/-- Blanks before and after a line do not change what `trim` returns. -/
theorem trim_padded (pre x post : AString) (hpre : ∀ c ∈ pre, isspace c = true)
    (hpost : ∀ c ∈ post, isspace c = true) : trim (pre ++ x ++ post) = trim x := by
  unfold trim
  rw [List.append_assoc, List.dropWhile_append_of_pos hpre, List.dropWhile_append]
  have hrev : ∀ c ∈ post.reverse, isspace c = true := by
    intro c hc
    exact hpost c (List.mem_reverse.mp hc)
  split
  · rename_i hempty
    have hx : List.dropWhile isspace x = [] := by
      cases h : List.dropWhile isspace x with
      | nil => rfl
      | cons a t => rw [h] at hempty; simp at hempty
    have hp : List.dropWhile isspace post = [] := by
      rw [List.dropWhile_eq_nil_iff]
      intro c hc
      exact hpost c hc
    rw [hx, hp]
  · rw [List.reverse_append, List.dropWhile_append_of_pos hrev]

namespace SDI12Sensors

/-- The first acknowledging reply is the one the acknowledgement loop stops at. -/
theorem first_ack_unique (a : Char) (b : SDI12) (k k' : Nat)
    (hrej' : ∀ i, i + 1 < k' → ¬ acknowledges a (reply b i))
    (hack' : acknowledges a (reply b (k' - 1))) (hk' : 1 ≤ k')
    (hrej : ∀ i, i < k → ¬ acknowledges a (reply b i))
    (hack : acknowledges a (reply b k)) : k' = k + 1 := by
  rcases Nat.lt_trichotomy (k' - 1) k with hlt | heq | hgt
  · exact absurd hack' (hrej _ hlt)
  · omega
  · exact absurd hack (hrej' k (by omega))

/-- The method `getSensorInfo` when the reply at position `k` is the first to
acknowledge: the next line is the info reply. -/
theorem info_of_first_ack (s : SDI12Sensors) (k : Nat) (hk : k < 5)
    (hrej : ∀ i, i < k → ¬ acknowledges s.SDI12address (reply s.SDI12Internal i))
    (hack : acknowledges s.SDI12address (reply s.SDI12Internal k)) :
    ((trim (reply s.SDI12Internal (k + 1))).length ≤ 1 →
      getSensorInfo s = (false, { s with
        SDI12Internal := { s.SDI12Internal with lines := s.SDI12Internal.lines.drop (k + 2) }
        trace := s.trace ++ activateCalls s.SDI12Internal.active
          ++ BusEvent.clearBuffer :: ackRounds [s.SDI12address, '!'] (k + 1)
          ++ exchangeCalls [s.SDI12address, 'I', '!']
          ++ [BusEvent.clearBuffer]
          ++ releaseCalls s.SDI12Internal.active })) ∧
    (1 < (trim (reply s.SDI12Internal (k + 1))).length →
      getSensorInfo s = (true, { s with
        SDI12Internal := { s.SDI12Internal with lines := s.SDI12Internal.lines.drop (k + 2) }
        sensorVendor := trim (substring (trim (reply s.SDI12Internal (k + 1))) 3 11)
        sensorModel := trim (substring (trim (reply s.SDI12Internal (k + 1))) 11 17)
        sensorVersion := trim (substring (trim (reply s.SDI12Internal (k + 1))) 17 20)
        sensorSerialNumber := trim (substring (trim (reply s.SDI12Internal (k + 1))) 20
          (trim (reply s.SDI12Internal (k + 1))).length)
        trace := s.trace ++ activateCalls s.SDI12Internal.active
          ++ BusEvent.clearBuffer :: ackRounds [s.SDI12address, '!'] (k + 1)
          ++ exchangeCalls [s.SDI12address, 'I', '!']
          ++ [BusEvent.clearBuffer]
          ++ releaseCalls s.SDI12Internal.active })) := by
  obtain ⟨k', hk1, hk5, hrej', h⟩ := info_spec s
  rcases h with ⟨_, hnone, _⟩ | ⟨hack', hlen, heq⟩ | ⟨hack', hlen, heq⟩
  · exact absurd hack (hnone k hk)
  · have := first_ack_unique _ _ k k' hrej' hack' hk1 hrej hack
    subst this
    exact ⟨fun _ => heq, fun h => by omega⟩
  · have := first_ack_unique _ _ k k' hrej' hack' hk1 hrej hack
    subst this
    exact ⟨fun h => by omega, fun _ => heq⟩

/-- The method `startSingleMeasurement` when the reply at position `k` is the first to
acknowledge and the next line is not blank. -/
theorem start_of_first_ack (s : SDI12Sensors) (k : Nat) (hk : k < 5)
    (hrej : ∀ i, i < k → ¬ acknowledges s.SDI12address (reply s.SDI12Internal i))
    (hack : acknowledges s.SDI12address (reply s.SDI12Internal k))
    (hfull : trim (reply s.SDI12Internal (k + 1)) ≠ []) :
    (startSingleMeasurement s).1 = true ∧
    (startSingleMeasurement s).2.millisMeasurementRequested = s.clock s.clockCalls % 2 ^ 32 ∧
    (startSingleMeasurement s).2.SDI12Internal
      = { s.SDI12Internal with lines := s.SDI12Internal.lines.drop (k + 2) } ∧
    (startSingleMeasurement s).2.clock = s.clock ∧
    (startSingleMeasurement s).2.clockCalls = s.clockCalls + 1 := by
  obtain ⟨k', hk1, hk5, hrej', h⟩ := start_spec s
  rcases h with ⟨_, hnone, _⟩ | ⟨hack', hempty, heq⟩ | ⟨hack', _, heq⟩
  · exact absurd hack (hnone k hk)
  · have := first_ack_unique _ _ k k' hrej' hack' hk1 hrej hack
    subst this
    exact absurd hempty hfull
  · have := first_ack_unique _ _ k k' hrej' hack' hk1 hrej hack
    subst this
    rw [heq]
    exact ⟨rfl, rfl, rfl, rfl, rfl⟩

end SDI12Sensors

namespace MaxBotixSonar

/-- The calls of one round of the retry loop: no result goes to the sink. -/
theorem step_trace (s : MaxBotixSonar) :
    ∃ u, (parseReading (trigger s)).2.trace = s.trace ++ u ∧ sinkCalls u = [] := by
  unfold trigger
  split
  · refine ⟨[SonarEvent.digitalWrite s.triggerPin true, SonarEvent.delayMicroseconds 30,
        SonarEvent.digitalWrite s.triggerPin false,
        SonarEvent.parseInt s.stream.parseInt.1, SonarEvent.read], ?_, rfl⟩
    simp [parseReading, streamRead]
  · refine ⟨[SonarEvent.parseInt s.stream.parseInt.1, SonarEvent.read], ?_, rfl⟩
    simp [parseReading, streamRead]

/-- The calls of the whole retry loop: no result goes to the sink. -/
theorem rangeLoop_trace (n : Nat) : ∀ (s : MaxBotixSonar) (a : Nat), a + n = 25 →
    ∃ t, (rangeLoop s ⟨false, a, -9999⟩).1.trace = s.trace ++ t ∧ sinkCalls t = [] := by
  induction n with
  | zero =>
    intro s a ha
    rw [rangeLoop_done _ _ (Or.inr (by simp; omega))]
    exact ⟨[], by simp, rfl⟩
  | succ n ih =>
    intro s a ha
    have hlt : a < 25 := by omega
    obtain ⟨u, hu, hus⟩ := step_trace s
    by_cases hacc : acceptable (token s.stream 0)
    · rw [rangeLoop_accept s a _ hlt hacc]
      exact ⟨u, hu, hus⟩
    · rw [rangeLoop_reject s a _ hlt hacc]
      obtain ⟨t, ht, hts⟩ := ih (parseReading (trigger s)).2 (a + 1) (by omega)
      refine ⟨u ++ t, ?_, ?_⟩
      · rw [ht, hu, List.append_assoc]
      · rw [sinkCalls_append, hus, hts]; rfl

/-- With 256 bytes or more reported, the eight-bit counter of the drain loop never
reaches the count: the loop is still running whatever the fuel. -/
theorem drainLoop_stuck (junkChars : Int) (h : 256 ≤ junkChars) (fuel : Nat) :
    ∀ (i : Nat) (s : MaxBotixSonar), i < 256 → drainLoop fuel i junkChars s = none := by
  induction fuel with
  | zero => intro i s _; rfl
  | succ fuel ih =>
    intro i s hi
    unfold drainLoop
    have hc : (i : Int) < junkChars := by omega
    rw [if_pos hc]
    exact ih _ _ (Nat.mod_lt _ (by omega))

/-- The header loop from round `i` reads `6 - i` lines and keeps none. -/
theorem headerLoop_spec (n : Nat) : ∀ (s : MaxBotixSonar) (i : Nat), i + n = 6 →
    headerLoop s i = { s with
      stream := { s.stream with lines := s.stream.lines.drop n }
      trace := s.trace ++ List.replicate n (SonarEvent.readStringUntil '\r') } := by
  induction n with
  | zero =>
    intro s i h
    rw [headerLoop, if_neg (by omega)]
    simp
  | succ n ih =>
    intro s i h
    rw [headerLoop, if_pos (by omega)]
    simp only []
    rw [ih _ (i + 1) (by omega)]
    have hl : s.stream.readStringUntil.2 = { s.stream with lines := s.stream.lines.drop 1 } := by
      unfold SerialStream.readStringUntil
      cases hls : s.stream.lines with
      | nil =>
        simp only [List.drop_nil]
        rcases s with ⟨⟨rx, ints, lines⟩, a, b, c, d, e⟩
        simp only at hls
        subst hls
        rfl
      | cons l rest => simp
    rw [hl]
    simp [List.replicate_succ, List.drop_drop, Nat.add_comm]

end MaxBotixSonar

/-! ## The ranging driver: retry loop and idle call -/

/-- C1: with a measurement in flight (and a backlog the drain loop clears), the method
returns after `k` parse attempts, where `k` is the position of the first acceptable token
among the first 25, or 25 when there is none; it never exceeds 25 and no token after the
`k`-th is taken from the stream. -/
theorem sonar_attempts_until_first_acceptable (fuel : Nat) (s : MaxBotixSonar)
    (hflight : 0 < s.millisMeasurementRequested)
    (hbacklog : s.stream.rx.length < 256) (hfuel : s.stream.rx.length < fuel) :
    ∃ (r : Bool × MaxBotixSonar) (k : Nat),
      MaxBotixSonar.addSingleMeasurementResult fuel s = some r ∧
      MaxBotixSonar.parseAttempts r.2.trace = MaxBotixSonar.parseAttempts s.trace + k ∧
      r.2.stream.ints = s.stream.ints.drop k ∧
      1 ≤ k ∧ k ≤ 25 ∧
      (∀ i, i + 1 < k → ¬ MaxBotixSonar.acceptable (MaxBotixSonar.token s.stream i)) ∧
      (MaxBotixSonar.acceptable (MaxBotixSonar.token s.stream (k - 1)) ∨
        (k = 25 ∧ ∀ i, i < 25 → ¬ MaxBotixSonar.acceptable (MaxBotixSonar.token s.stream i))) := by
  obtain ⟨b, s', k, res, h1, h2, h3, h4, h5, h6, h7, h8, h9, h10⟩ :=
    MaxBotixSonar.inflight_spec fuel s hflight hbacklog hfuel
  refine ⟨(b, s'), k, h1, h2, h3, h5, h6, h7, ?_⟩
  rcases h8 with ⟨_, hacc, _⟩ | ⟨_, hk, hnone, _⟩
  · left; exact hacc
  · right; exact ⟨hk, hnone⟩

/-- Witness of C1 on scenario C: three attempts. -/
theorem sonar_attempts_until_first_acceptable_witness :
    0 < MaxBotixSonar.scenarioC.millisMeasurementRequested ∧
    MaxBotixSonar.scenarioC.stream.rx.length < 256 ∧
    ∃ (r : Bool × MaxBotixSonar) (k : Nat),
      MaxBotixSonar.addSingleMeasurementResult 1 MaxBotixSonar.scenarioC = some r ∧
      MaxBotixSonar.parseAttempts r.2.trace
        = MaxBotixSonar.parseAttempts MaxBotixSonar.scenarioC.trace + k ∧
      r.2.stream.ints = MaxBotixSonar.scenarioC.stream.ints.drop k ∧
      1 ≤ k ∧ k ≤ 25 ∧
      (∀ i, i + 1 < k →
        ¬ MaxBotixSonar.acceptable (MaxBotixSonar.token MaxBotixSonar.scenarioC.stream i)) ∧
      (MaxBotixSonar.acceptable (MaxBotixSonar.token MaxBotixSonar.scenarioC.stream (k - 1)) ∨
        (k = 25 ∧ ∀ i, i < 25 →
          ¬ MaxBotixSonar.acceptable (MaxBotixSonar.token MaxBotixSonar.scenarioC.stream i))) :=
  ⟨by decide, by decide,
    sonar_attempts_until_first_acceptable 1 MaxBotixSonar.scenarioC (by decide) (by decide)
      (by decide)⟩

/-- C2: with a measurement in flight, when the token at position `k < 25` is the first
acceptable one, the method returns true, hands exactly that token to the result sink and
has made `k + 1` parse attempts. -/
theorem sonar_first_acceptable_is_result (fuel : Nat) (s : MaxBotixSonar)
    (hflight : 0 < s.millisMeasurementRequested)
    (hbacklog : s.stream.rx.length < 256) (hfuel : s.stream.rx.length < fuel)
    (k : Nat) (hk : k < 25)
    (hrej : ∀ i, i < k → ¬ MaxBotixSonar.acceptable (MaxBotixSonar.token s.stream i))
    (hacc : MaxBotixSonar.acceptable (MaxBotixSonar.token s.stream k)) :
    ∃ s' : MaxBotixSonar,
      MaxBotixSonar.addSingleMeasurementResult fuel s = some (true, s') ∧
      MaxBotixSonar.sinkCalls s'.trace
        = MaxBotixSonar.sinkCalls s.trace ++ [(s.HRXL_VAR_NUM, MaxBotixSonar.token s.stream k)] ∧
      MaxBotixSonar.parseAttempts s'.trace = MaxBotixSonar.parseAttempts s.trace + (k + 1) := by
  obtain ⟨b, s', j, res, h1, h2, h3, h4, h5, h6, h7, h8, h9, h10⟩ :=
    MaxBotixSonar.inflight_spec fuel s hflight hbacklog hfuel
  rcases h8 with ⟨hb, hj, hres⟩ | ⟨_, hj, hnone, _⟩
  · have hjk : j = k + 1 := by
      rcases Nat.lt_trichotomy (j - 1) k with hlt | heq | hgt
      · exact absurd hj (hrej (j - 1) hlt)
      · omega
      · exact absurd hacc (h7 k (by omega))
    subst hjk
    subst hb
    refine ⟨s', h1, ?_, h2⟩
    rw [h4, hres]
    simp
  · exact absurd hacc (hnone k hk)

/-- Witness of C2, scenario C: tokens 500, 9999, 712 give result 712, success, 3
attempts. -/
theorem sonar_first_acceptable_is_result_witness :
    0 < MaxBotixSonar.scenarioC.millisMeasurementRequested ∧
    MaxBotixSonar.scenarioC.stream.rx.length < 256 ∧
    (∀ i, i < 2 →
      ¬ MaxBotixSonar.acceptable (MaxBotixSonar.token MaxBotixSonar.scenarioC.stream i)) ∧
    MaxBotixSonar.acceptable (MaxBotixSonar.token MaxBotixSonar.scenarioC.stream 2) ∧
    ∃ s' : MaxBotixSonar,
      MaxBotixSonar.addSingleMeasurementResult 1 MaxBotixSonar.scenarioC = some (true, s') ∧
      MaxBotixSonar.sinkCalls s'.trace = [(0, 712)] ∧
      MaxBotixSonar.parseAttempts s'.trace = 3 :=
  ⟨by decide, by decide, by decide, by decide,
    sonar_first_acceptable_is_result 1 MaxBotixSonar.scenarioC (by decide) (by decide)
      (by decide) 2 (by decide) (by decide) (by decide)⟩

/-- C3: with a measurement in flight, when none of the first 25 tokens is acceptable, the
method makes exactly 25 parse attempts, hands the sentinel -9999 to the result sink and
returns false. -/
theorem sonar_exhausted_gives_sentinel (fuel : Nat) (s : MaxBotixSonar)
    (hflight : 0 < s.millisMeasurementRequested)
    (hbacklog : s.stream.rx.length < 256) (hfuel : s.stream.rx.length < fuel)
    (hnone : ∀ i, i < 25 → ¬ MaxBotixSonar.acceptable (MaxBotixSonar.token s.stream i)) :
    ∃ s' : MaxBotixSonar,
      MaxBotixSonar.addSingleMeasurementResult fuel s = some (false, s') ∧
      MaxBotixSonar.sinkCalls s'.trace
        = MaxBotixSonar.sinkCalls s.trace ++ [(s.HRXL_VAR_NUM, -9999)] ∧
      MaxBotixSonar.parseAttempts s'.trace = MaxBotixSonar.parseAttempts s.trace + 25 := by
  obtain ⟨b, s', j, res, h1, h2, h3, h4, h5, h6, h7, h8, h9, h10⟩ :=
    MaxBotixSonar.inflight_spec fuel s hflight hbacklog hfuel
  rcases h8 with ⟨_, hj, _⟩ | ⟨hb, hj, _, hres⟩
  · exact absurd hj (hnone (j - 1) (by omega))
  · subst hb hj hres
    exact ⟨s', h1, h4, h2⟩

/-- Witness of C3, scenario D: 25 tokens 0 give the sentinel, failure, 25 attempts. -/
theorem sonar_exhausted_gives_sentinel_witness :
    0 < MaxBotixSonar.scenarioD.millisMeasurementRequested ∧
    MaxBotixSonar.scenarioD.stream.rx.length < 256 ∧
    (∀ i, i < 25 →
      ¬ MaxBotixSonar.acceptable (MaxBotixSonar.token MaxBotixSonar.scenarioD.stream i)) ∧
    ∃ s' : MaxBotixSonar,
      MaxBotixSonar.addSingleMeasurementResult 1 MaxBotixSonar.scenarioD = some (false, s') ∧
      MaxBotixSonar.sinkCalls s'.trace = [(0, -9999)] ∧
      MaxBotixSonar.parseAttempts s'.trace = 25 :=
  ⟨by decide, by decide, by decide,
    sonar_exhausted_gives_sentinel 1 MaxBotixSonar.scenarioD (by decide) (by decide)
      (by decide) (by decide)⟩

/-- C6, as stated, fails: called with no measurement in flight, one stale byte buffered
and a clear status byte, the method returns false but has emptied the buffer, handed
-9999 to the result sink and set bit 6 of the status. -/
theorem sonar_idle_call_has_effects :
    (MaxBotixSonar.addSingleMeasurementResult 2 MaxBotixSonar.idleSonar).map
        (fun r => (r.1, r.2.stream.rx, MaxBotixSonar.sinkCalls r.2.trace, r.2.sensorStatus))
      = some (false, [], [(0, -9999)], 64) ∧
    MaxBotixSonar.idleSonar.millisMeasurementRequested = 0 ∧
    MaxBotixSonar.idleSonar.stream.rx = [13] ∧
    MaxBotixSonar.sinkCalls MaxBotixSonar.idleSonar.trace = [] ∧
    MaxBotixSonar.idleSonar.sensorStatus = 0 := by
  decide

/-- C6, amended: with no measurement in flight (and a backlog the drain loop clears), the
method returns false without any parse attempt; it reads the buffered bytes away, hands
-9999 to the result sink once at the driver's variable index, leaves the time stamp 0,
clears bit 5 of the status and sets bit 6. -/
theorem sonar_idle_call (fuel : Nat) (s : MaxBotixSonar)
    (hidle : s.millisMeasurementRequested = 0)
    (hbacklog : s.stream.rx.length < 256) (hfuel : s.stream.rx.length < fuel) :
    ∃ s' : MaxBotixSonar,
      MaxBotixSonar.addSingleMeasurementResult fuel s = some (false, s') ∧
      s'.stream.ints = s.stream.ints ∧
      s'.stream.rx = [] ∧
      s'.trace = s.trace ++ SonarEvent.available
        :: List.replicate s.stream.rx.length SonarEvent.read
        ++ [SonarEvent.verifyAndAddMeasurementResult s.HRXL_VAR_NUM (-9999)] ∧
      s'.millisMeasurementRequested = 0 ∧
      s'.sensorStatus = statusOr (statusAnd s.sensorStatus 0b11011111) 0b01000000 := by
  obtain ⟨s', h1, h2, _, h4, h5, _, h7, h8, _⟩ :=
    MaxBotixSonar.idle_spec fuel s hidle hbacklog hfuel
  exact ⟨s', h1, h2, h4, h5, h7, h8⟩

/-- Witness of the amended C6 on the idle sonar with one stale byte. -/
theorem sonar_idle_call_witness :
    MaxBotixSonar.idleSonar.millisMeasurementRequested = 0 ∧
    MaxBotixSonar.idleSonar.stream.rx.length < 256 ∧
    ∃ s' : MaxBotixSonar,
      MaxBotixSonar.addSingleMeasurementResult 2 MaxBotixSonar.idleSonar = some (false, s') ∧
      s'.stream.ints = [] ∧
      s'.stream.rx = [] ∧
      s'.trace = [SonarEvent.available, SonarEvent.read,
        SonarEvent.verifyAndAddMeasurementResult 0 (-9999)] ∧
      s'.millisMeasurementRequested = 0 ∧
      s'.sensorStatus = 64 :=
  ⟨by decide, by decide,
    sonar_idle_call 2 MaxBotixSonar.idleSonar (by decide) (by decide) (by decide)⟩

/-! ## The SDI-12 driver: acknowledgement, bus sharing, measurement cycle -/

/-- C4: `requestSensorAcknowledgement` sends `"<address>!"` exactly `k` times, each send
followed by one `delay(30)`, where `k` is the position of the first reply among the first
5 whose trimmed text starts with the address, or 5 when there is none; it returns true
exactly when such a reply exists among the first 5. -/
theorem ack_sends_until_first_acknowledging_reply (s : SDI12Sensors) :
    ∃ k, 1 ≤ k ∧ k ≤ 5 ∧
      (SDI12Sensors.requestSensorAcknowledgement s).2.trace
        = s.trace ++ BusEvent.clearBuffer
          :: SDI12Sensors.ackRounds [s.SDI12address, '!'] k ∧
      SDI12Sensors.sentCommands (SDI12Sensors.requestSensorAcknowledgement s).2.trace
        = SDI12Sensors.sentCommands s.trace ++ List.replicate k [s.SDI12address, '!'] ∧
      (∀ i, i + 1 < k →
        ¬ SDI12Sensors.acknowledges s.SDI12address (SDI12Sensors.reply s.SDI12Internal i)) ∧
      (SDI12Sensors.acknowledges s.SDI12address (SDI12Sensors.reply s.SDI12Internal (k - 1)) ∨
        k = 5) ∧
      ((SDI12Sensors.requestSensorAcknowledgement s).1 = true ↔
        ∃ i, i < 5 ∧
          SDI12Sensors.acknowledges s.SDI12address (SDI12Sensors.reply s.SDI12Internal i)) := by
  obtain ⟨k, hk1, hk5, e1, e2, e3⟩ := SDI12Sensors.ack_spec s
  refine ⟨k, hk1, hk5, by rw [e1], ?_, e2, ?_, ?_⟩
  · rw [e1]
    have := (SDI12Sensors.ackRounds_facts [s.SDI12address, '!'] k).1
    simp [SDI12Sensors.sentCommands_append, SDI12Sensors.sentCommands, this]
  · rcases e3 with ⟨_, h⟩ | ⟨_, h, _⟩
    · left; exact h
    · right; exact h
  · rcases e3 with ⟨r1, r2⟩ | ⟨r1, _, r3⟩
    · constructor
      · intro _; exact ⟨k - 1, by omega, r2⟩
      · intro _; exact r1
    · constructor
      · intro h; rw [r1] at h; cases h
      · rintro ⟨i, hi, hack⟩; exact absurd hack (r3 i hi)

/-- Scenario A under C4: address `'0'` and first reply `"0\r\n"` give true after one
command. -/
theorem ack_sends_until_first_acknowledging_reply_witness :
    (SDI12Sensors.requestSensorAcknowledgement SDI12Sensors.scenarioA).1 = true ∧
    SDI12Sensors.sentCommands
      (SDI12Sensors.requestSensorAcknowledgement SDI12Sensors.scenarioA).2.trace
      = [['0', '!']] := by
  obtain ⟨k, hk1, hk5, _, hsent, hrej, _, hiff⟩ :=
    ack_sends_until_first_acknowledging_reply SDI12Sensors.scenarioA
  have h0 : SDI12Sensors.acknowledges SDI12Sensors.scenarioA.SDI12address
      (SDI12Sensors.reply SDI12Sensors.scenarioA.SDI12Internal 0) := by decide
  have hk : k = 1 := by
    by_contra hne
    exact hrej 0 (by omega) h0
  subst hk
  exact ⟨hiff.mpr ⟨0, by omega, h0⟩, hsent⟩

/-- C5 fails on the code: on a bus that is not active, with a sensor that never answers,
`getSensorInfo` and `startSingleMeasurement` both return false and leave the bus active. -/
theorem silent_sensor_leaves_bus_active :
    SDI12Sensors.silentSensor.SDI12Internal.active = false ∧
    (SDI12Sensors.getSensorInfo SDI12Sensors.silentSensor).1 = false ∧
    (SDI12Sensors.getSensorInfo SDI12Sensors.silentSensor).2.SDI12Internal.active = true ∧
    (SDI12Sensors.startSingleMeasurement SDI12Sensors.silentSensor).1 = false ∧
    (SDI12Sensors.startSingleMeasurement SDI12Sensors.silentSensor).2.SDI12Internal.active
      = true := by
  have hnone : ∀ i, ¬ SDI12Sensors.acknowledges SDI12Sensors.silentSensor.SDI12address
      (SDI12Sensors.reply SDI12Sensors.silentSensor.SDI12Internal i) := by
    intro i
    have : SDI12Sensors.reply SDI12Sensors.silentSensor.SDI12Internal i = [] := by
      simp [SDI12Sensors.reply, SDI12Sensors.silentSensor]
    rw [this]
    decide
  refine ⟨rfl, ?_, ?_, ?_, ?_⟩
  · obtain ⟨k, _, _, _, h⟩ := SDI12Sensors.info_spec SDI12Sensors.silentSensor
    rcases h with ⟨_, _, h⟩ | ⟨hack, _⟩ | ⟨hack, _⟩
    · rw [h]
    · exact absurd hack (hnone _)
    · exact absurd hack (hnone _)
  · obtain ⟨k, _, _, _, h⟩ := SDI12Sensors.info_spec SDI12Sensors.silentSensor
    rcases h with ⟨_, _, h⟩ | ⟨hack, _⟩ | ⟨hack, _⟩
    · rw [h]
    · exact absurd hack (hnone _)
    · exact absurd hack (hnone _)
  · obtain ⟨k, _, _, _, h⟩ := SDI12Sensors.start_spec SDI12Sensors.silentSensor
    rcases h with ⟨_, _, h⟩ | ⟨hack, _⟩ | ⟨hack, _⟩
    · rw [h]
    · exact absurd hack (hnone _)
    · exact absurd hack (hnone _)
  · obtain ⟨k, _, _, _, h⟩ := SDI12Sensors.start_spec SDI12Sensors.silentSensor
    rcases h with ⟨_, _, h⟩ | ⟨hack, _⟩ | ⟨hack, _⟩
    · rw [h]
    · exact absurd hack (hnone _)
    · exact absurd hack (hnone _)

/-- C7: with no measurement in flight, `addSingleMeasurementResult` returns false and
leaves the whole driver state as it was, the trace of calls, the time stamp, the status
byte and the bus activation included; so does any number of calls in a row. -/
theorem sdi_idle_call_changes_nothing (fuel : Nat) (s : SDI12Sensors)
    (hidle : s.millisMeasurementRequested = 0) :
    SDI12Sensors.addSingleMeasurementResult fuel s = some (false, s) ∧
    ∀ n, SDI12Sensors.addSingleMeasurementResultTimes fuel n s = some (false, s) := by
  have h1 : SDI12Sensors.addSingleMeasurementResult fuel s = some (false, s) := by
    unfold SDI12Sensors.addSingleMeasurementResult
    rw [if_neg (by omega)]
  refine ⟨h1, ?_⟩
  intro n
  induction n with
  | zero => exact h1
  | succ n ih =>
    unfold SDI12Sensors.addSingleMeasurementResultTimes
    rw [h1]
    exact ih

/-- Witness of C7 on the silent sensor, with no fuel at all. -/
theorem sdi_idle_call_changes_nothing_witness :
    SDI12Sensors.silentSensor.millisMeasurementRequested = 0 ∧
    SDI12Sensors.addSingleMeasurementResult 0 SDI12Sensors.silentSensor
      = some (false, SDI12Sensors.silentSensor) ∧
    ∀ n, SDI12Sensors.addSingleMeasurementResultTimes 0 n SDI12Sensors.silentSensor
      = some (false, SDI12Sensors.silentSensor) :=
  ⟨rfl, sdi_idle_call_changes_nothing 0 SDI12Sensors.silentSensor rfl⟩

/-- C8: `startSingleMeasurement` returns true exactly when the acknowledgement succeeded
(the reply at some position `k < 5` is the first to acknowledge) and the trimmed reply
read next, the answer to `"<address>C!"`, is not empty; then the time stamp is the value
of the one clock reading the call makes, and when it returns false the time stamp is 0. -/
theorem start_measurement_outcome (s : SDI12Sensors) :
    ((SDI12Sensors.startSingleMeasurement s).1 = true ↔
      ∃ k, k < 5 ∧
        (∀ i, i < k →
          ¬ SDI12Sensors.acknowledges s.SDI12address (SDI12Sensors.reply s.SDI12Internal i)) ∧
        SDI12Sensors.acknowledges s.SDI12address (SDI12Sensors.reply s.SDI12Internal k) ∧
        trim (SDI12Sensors.reply s.SDI12Internal (k + 1)) ≠ []) ∧
    ((SDI12Sensors.startSingleMeasurement s).1 = true →
      (SDI12Sensors.startSingleMeasurement s).2.millisMeasurementRequested
        = s.clock s.clockCalls % 2 ^ 32 ∧
      (SDI12Sensors.startSingleMeasurement s).2.clockCalls = s.clockCalls + 1 ∧
      ∃ k, SDI12Sensors.sentCommands (SDI12Sensors.startSingleMeasurement s).2.trace
        = SDI12Sensors.sentCommands s.trace ++ List.replicate k [s.SDI12address, '!']
          ++ [[s.SDI12address, 'C', '!']]) ∧
    ((SDI12Sensors.startSingleMeasurement s).1 = false →
      (SDI12Sensors.startSingleMeasurement s).2.millisMeasurementRequested = 0) := by
  obtain ⟨k, hk1, hk5, hrej, h⟩ := SDI12Sensors.start_spec s
  have huniq : ∀ j, j < 5 →
      (∀ i, i < j →
        ¬ SDI12Sensors.acknowledges s.SDI12address (SDI12Sensors.reply s.SDI12Internal i)) →
      SDI12Sensors.acknowledges s.SDI12address (SDI12Sensors.reply s.SDI12Internal j) →
      SDI12Sensors.acknowledges s.SDI12address (SDI12Sensors.reply s.SDI12Internal (k - 1)) →
      j + 1 = k := by
    intro j _ hj1 hj2 hk
    rcases Nat.lt_trichotomy (k - 1) j with hlt | heq | hgt
    · exact absurd hk (hj1 _ hlt)
    · omega
    · exact absurd hj2 (hrej j (by omega))
  rcases h with ⟨_, hnone, heq⟩ | ⟨hack, hempty, heq⟩ | ⟨hack, hfull, heq⟩
  · rw [heq]
    refine ⟨⟨?_, ?_⟩, ?_, fun _ => rfl⟩
    · intro h; cases h
    · rintro ⟨j, hj, _, hj2, _⟩
      exact absurd hj2 (hnone j hj)
    · intro h; cases h
  · rw [heq]
    refine ⟨⟨?_, ?_⟩, ?_, fun _ => rfl⟩
    · intro h; cases h
    · rintro ⟨j, hj, hj1, hj2, hj3⟩
      have := huniq j hj hj1 hj2 hack
      subst this
      exact absurd hempty hj3
    · intro h; cases h
  · rw [heq]
    refine ⟨⟨?_, fun _ => rfl⟩, ?_, ?_⟩
    · intro _
      refine ⟨k - 1, by omega, fun i hi => hrej i (by omega), hack, ?_⟩
      have : k - 1 + 1 = k := by omega
      rw [this]; exact hfull
    · intro _
      refine ⟨rfl, rfl, k, ?_⟩
      have h1 := (SDI12Sensors.ackRounds_facts [s.SDI12address, '!'] k).1
      have h2 := SDI12Sensors.calls_facts s.SDI12Internal.active 0
      simp only [SDI12Sensors.sentCommands_append, h2.2.1, h2.2.2.2.1]
      simp [SDI12Sensors.sentCommands, SDI12Sensors.exchangeCalls, h1]
    · intro h; cases h

/-- C9: after `startSingleMeasurement`, whatever its outcome, bit 5 of the status is set
and bit 6 clear; after `addSingleMeasurementResult` of the SDI-12 driver with a
measurement in flight, and after that of the ranging driver, bit 5 is clear, bit 6 set and
the time stamp 0.  The two retrievals are taken where their waiting loops end. -/
theorem status_bits_after_start_and_retrieval (s t : SDI12Sensors) (m : MaxBotixSonar)
    (fuel j : Nat) (hflight : 0 < t.millisMeasurementRequested) (hj : j < fuel)
    (hstop : ¬ SDI12Sensors.keepsWaiting (SDI12Sensors.millis t).2 (SDI12Sensors.millis t).1 j)
    (hbacklog : m.stream.rx.length < 256) (hfuel : m.stream.rx.length < fuel) :
    ((SDI12Sensors.startSingleMeasurement s).2.sensorStatus.testBit 5 = true ∧
      (SDI12Sensors.startSingleMeasurement s).2.sensorStatus.testBit 6 = false) ∧
    (∃ r, SDI12Sensors.addSingleMeasurementResult fuel t = some r ∧
      r.2.sensorStatus.testBit 5 = false ∧ r.2.sensorStatus.testBit 6 = true ∧
      r.2.millisMeasurementRequested = 0) ∧
    (∃ r, MaxBotixSonar.addSingleMeasurementResult fuel m = some r ∧
      r.2.sensorStatus.testBit 5 = false ∧ r.2.sensorStatus.testBit 6 = true ∧
      r.2.millisMeasurementRequested = 0) := by
  refine ⟨?_, ?_, ?_⟩
  · obtain ⟨k, _, _, _, h⟩ := SDI12Sensors.start_spec s
    rcases h with ⟨_, _, heq⟩ | ⟨_, _, heq⟩ | ⟨_, _, heq⟩ <;>
      (rw [heq]; exact SDI12Sensors.status_requested s.sensorStatus)
  · obtain ⟨j', hj', hkeep, hstop'⟩ := SDI12Sensors.first_stop
      (fun i => SDI12Sensors.keepsWaiting (SDI12Sensors.millis t).2 (SDI12Sensors.millis t).1 i)
      fuel j hj hstop
    refine ⟨_, SDI12Sensors.add_spec fuel t j' hflight hj' hkeep hstop', ?_⟩
    have := SDI12Sensors.status_complete t.sensorStatus
    exact ⟨this.1, this.2, rfl⟩
  · have hb := SDI12Sensors.status_complete m.sensorStatus
    rcases Nat.eq_zero_or_pos m.millisMeasurementRequested with h0 | hpos
    · obtain ⟨s', h1, _, _, _, _, _, h7, h8, _⟩ := MaxBotixSonar.idle_spec fuel m h0 hbacklog hfuel
      exact ⟨_, h1, by rw [h8]; exact hb.1, by rw [h8]; exact hb.2, h7⟩
    · obtain ⟨b, s', k, res, h1, _, _, _, _, _, _, _, h9, h10⟩ :=
        MaxBotixSonar.inflight_spec fuel m hpos hbacklog hfuel
      exact ⟨_, h1, by rw [h10]; exact hb.1, by rw [h10]; exact hb.2, h9⟩

/-- Witness of C9: the silent sensor for the start, scenario B for the SDI-12 retrieval,
scenario C for the sonar. -/
theorem status_bits_after_start_and_retrieval_witness :
    0 < SDI12Sensors.scenarioB.millisMeasurementRequested ∧
    ¬ SDI12Sensors.keepsWaiting (SDI12Sensors.millis SDI12Sensors.scenarioB).2
      (SDI12Sensors.millis SDI12Sensors.scenarioB).1 0 ∧
    MaxBotixSonar.scenarioC.stream.rx.length < 256 ∧
    ((SDI12Sensors.startSingleMeasurement SDI12Sensors.silentSensor).2.sensorStatus.testBit 5
        = true ∧
      (SDI12Sensors.startSingleMeasurement SDI12Sensors.silentSensor).2.sensorStatus.testBit 6
        = false) ∧
    (∃ r, SDI12Sensors.addSingleMeasurementResult 1 SDI12Sensors.scenarioB = some r ∧
      r.2.sensorStatus.testBit 5 = false ∧ r.2.sensorStatus.testBit 6 = true ∧
      r.2.millisMeasurementRequested = 0) ∧
    (∃ r, MaxBotixSonar.addSingleMeasurementResult 1 MaxBotixSonar.scenarioC = some r ∧
      r.2.sensorStatus.testBit 5 = false ∧ r.2.sensorStatus.testBit 6 = true ∧
      r.2.millisMeasurementRequested = 0) :=
  ⟨by decide, by decide, by decide,
    status_bits_after_start_and_retrieval SDI12Sensors.silentSensor SDI12Sensors.scenarioB
      MaxBotixSonar.scenarioC 1 0 (by decide) (by decide) (by decide) (by decide) (by decide)⟩

/-- C10: with a measurement in flight, `addSingleMeasurementResult` sends
`"<address>D0!"`, waits, drops one byte, then parses `_numReturnedVars` values and hands
them to the result sink at the indices 0, 1, ... in that order, not-a-number and -9999
both becoming -9999, and returns true whatever the values are. -/
theorem sdi_retrieval_hands_each_parsed_value (fuel : Nat) (s : SDI12Sensors) (j : Nat)
    (hflight : 0 < s.millisMeasurementRequested) (hj : j < fuel)
    (hstop : ¬ SDI12Sensors.keepsWaiting (SDI12Sensors.millis s).2 (SDI12Sensors.millis s).1 j) :
    ∃ (s' : SDI12Sensors) (w : List BusEvent),
      SDI12Sensors.addSingleMeasurementResult fuel s = some (true, s') ∧
      s'.trace = s.trace ++ SDI12Sensors.activateCalls s.SDI12Internal.active
        ++ [BusEvent.sendCommand [s.SDI12address, 'D', '0', '!'], BusEvent.delay 30,
          BusEvent.millis]
        ++ w
        ++ [BusEvent.read]
        ++ SDI12Sensors.resultRounds s.SDI12Internal.floats 0 s.numReturnedVars
        ++ [BusEvent.clearBuffer]
        ++ SDI12Sensors.releaseCalls s.SDI12Internal.active ∧
      (∀ e, e ∈ w → e = BusEvent.available ∨ e = BusEvent.millis) ∧
      SDI12Sensors.sentCommands s'.trace
        = SDI12Sensors.sentCommands s.trace ++ [[s.SDI12address, 'D', '0', '!']] ∧
      SDI12Sensors.sinkCalls s'.trace
        = SDI12Sensors.sinkCalls s.trace ++ (List.range s.numReturnedVars).map
            (fun i => (i, SDI12Sensors.normalised (SDI12Sensors.parsed s.SDI12Internal i))) := by
  obtain ⟨j', hj', hkeep, hstop'⟩ := SDI12Sensors.first_stop
    (fun i => SDI12Sensors.keepsWaiting (SDI12Sensors.millis s).2 (SDI12Sensors.millis s).1 i)
    fuel j hj hstop
  have hc := SDI12Sensors.calls_facts s.SDI12Internal.active j'
  have hr := SDI12Sensors.resultRounds_sinkCalls s.numReturnedVars s.SDI12Internal.floats 0
  have hw : ∀ e, e ∈ SDI12Sensors.pollRounds j' ++ BusEvent.available ::
      (if s.SDI12Internal.avail (s.SDI12Internal.polls + j') < 3 then [BusEvent.millis]
        else []) → e = BusEvent.available ∨ e = BusEvent.millis := by
    intro e he
    rw [List.mem_append] at he
    rcases he with he | he
    · clear hc hkeep hstop' hj'
      induction j' with
      | zero => cases he
      | succ n ih =>
        simp only [SDI12Sensors.pollRounds, List.cons_append, List.nil_append,
          List.mem_cons] at he
        rcases he with he | he | he
        · left; exact he
        · right; exact he
        · exact ih he
    · split at he <;> simp at he <;> tauto
  have hwc : SDI12Sensors.sinkCalls (BusEvent.available ::
      (if s.SDI12Internal.avail (s.SDI12Internal.polls + j') < 3 then [BusEvent.millis]
        else [])) = [] ∧ SDI12Sensors.sentCommands (BusEvent.available ::
      (if s.SDI12Internal.avail (s.SDI12Internal.polls + j') < 3 then [BusEvent.millis]
        else [])) = [] := by
    split <;> exact ⟨rfl, rfl⟩
  refine ⟨_, _, SDI12Sensors.add_spec fuel s j' hflight hj' hkeep hstop', ?_, hw, ?_, ?_⟩
  · simp only [List.append_assoc]
  · simp only [SDI12Sensors.sentCommands_append, hc.2.1, hc.2.2.2.1, hc.2.2.2.2.2, hr.2, hwc.2]
    simp [SDI12Sensors.sentCommands]
  · simp only [SDI12Sensors.bus_sinkCalls_append, hc.1, hc.2.2.1, hc.2.2.2.2.1, hr.1, hwc.1]
    simp [SDI12Sensors.sinkCalls, SDI12Sensors.parsed]

/-- Witness of C10, scenario B: two variables and the parsed values 12.3 and 45.6 reach
the sink as they are, at the indices 0 and 1. -/
theorem sdi_retrieval_hands_each_parsed_value_witness :
    0 < SDI12Sensors.scenarioB.millisMeasurementRequested ∧
    ¬ SDI12Sensors.keepsWaiting (SDI12Sensors.millis SDI12Sensors.scenarioB).2
      (SDI12Sensors.millis SDI12Sensors.scenarioB).1 0 ∧
    ∃ s' : SDI12Sensors,
      SDI12Sensors.addSingleMeasurementResult 1 SDI12Sensors.scenarioB = some (true, s') ∧
      SDI12Sensors.sentCommands s'.trace = [['0', 'D', '0', '!']] ∧
      SDI12Sensors.sinkCalls s'.trace
        = [(0, FloatVal.num (123 / 10)), (1, FloatVal.num (456 / 10))] := by
  obtain ⟨s', w, h1, _, _, h4, h5⟩ :=
    sdi_retrieval_hands_each_parsed_value 1 SDI12Sensors.scenarioB 0 (by decide) (by decide)
      (by decide)
  refine ⟨by decide, by decide, s', h1, h4, ?_⟩
  rw [h5]
  have e0 : SDI12Sensors.normalised (FloatVal.num (123 / 10)) = FloatVal.num (123 / 10) := by
    unfold SDI12Sensors.normalised
    rw [if_neg]
    simp only [FloatVal.num.injEq, or_false, reduceCtorEq]
    norm_num
  have e1 : SDI12Sensors.normalised (FloatVal.num (456 / 10)) = FloatVal.num (456 / 10) := by
    unfold SDI12Sensors.normalised
    rw [if_neg]
    simp only [FloatVal.num.injEq, or_false, reduceCtorEq]
    norm_num
  simp [SDI12Sensors.scenarioB, SDI12Sensors.silentSensor, SDI12Sensors.sinkCalls,
    SDI12Sensors.parsed, List.range_succ, e0, e1]

/-! ## The SDI-12 driver: the identity fields -/

/-- C11: when the sensor acknowledges and the trimmed info reply `r` has at least 20
characters, `getSensorInfo` returns true with vendor, model, version and serial the trimmed
columns 3-10, 11-16, 17-19 and 20 to the end of `r`; a reply line that differs only by
blanks before and after it gives the same four fields. -/
theorem info_reply_columns (s s' : SDI12Sensors) (k : Nat) (pre post : AString)
    (hk : k < 5)
    (hrej : ∀ i, i < k →
      ¬ SDI12Sensors.acknowledges s.SDI12address (SDI12Sensors.reply s.SDI12Internal i))
    (hack : SDI12Sensors.acknowledges s.SDI12address (SDI12Sensors.reply s.SDI12Internal k))
    (hlen : 20 ≤ (trim (SDI12Sensors.reply s.SDI12Internal (k + 1))).length)
    (haddr : s'.SDI12address = s.SDI12address)
    (hsame : ∀ i, i ≤ k →
      SDI12Sensors.reply s'.SDI12Internal i = SDI12Sensors.reply s.SDI12Internal i)
    (hpre : ∀ c ∈ pre, isspace c = true) (hpost : ∀ c ∈ post, isspace c = true)
    (hpad : SDI12Sensors.reply s'.SDI12Internal (k + 1)
      = pre ++ SDI12Sensors.reply s.SDI12Internal (k + 1) ++ post) :
    (SDI12Sensors.getSensorInfo s).1 = true ∧
    (SDI12Sensors.getSensorInfo s).2.sensorVendor
      = trim (((trim (SDI12Sensors.reply s.SDI12Internal (k + 1))).take 11).drop 3) ∧
    (SDI12Sensors.getSensorInfo s).2.sensorModel
      = trim (((trim (SDI12Sensors.reply s.SDI12Internal (k + 1))).take 17).drop 11) ∧
    (SDI12Sensors.getSensorInfo s).2.sensorVersion
      = trim (((trim (SDI12Sensors.reply s.SDI12Internal (k + 1))).take 20).drop 17) ∧
    (SDI12Sensors.getSensorInfo s).2.sensorSerialNumber
      = trim ((trim (SDI12Sensors.reply s.SDI12Internal (k + 1))).drop 20) ∧
    (SDI12Sensors.getSensorInfo s').1 = true ∧
    (SDI12Sensors.getSensorInfo s').2.sensorVendor
      = (SDI12Sensors.getSensorInfo s).2.sensorVendor ∧
    (SDI12Sensors.getSensorInfo s').2.sensorModel
      = (SDI12Sensors.getSensorInfo s).2.sensorModel ∧
    (SDI12Sensors.getSensorInfo s').2.sensorVersion
      = (SDI12Sensors.getSensorInfo s).2.sensorVersion ∧
    (SDI12Sensors.getSensorInfo s').2.sensorSerialNumber
      = (SDI12Sensors.getSensorInfo s).2.sensorSerialNumber := by
  have htrim : trim (SDI12Sensors.reply s'.SDI12Internal (k + 1))
      = trim (SDI12Sensors.reply s.SDI12Internal (k + 1)) := by
    rw [hpad, trim_padded _ _ _ hpre hpost]
  have h1 := (SDI12Sensors.info_of_first_ack s k hk hrej hack).2 (by omega)
  have h2 := (SDI12Sensors.info_of_first_ack s' k hk
    (by intro i hi; rw [haddr, hsame i (by omega)]; exact hrej i hi)
    (by rw [haddr, hsame k (le_refl k)]; exact hack)).2 (by rw [htrim]; omega)
  rw [h1, h2, htrim]
  simp only [substring_eq_slice _ 3 11 (by omega), substring_eq_slice _ 11 17 (by omega),
    substring_eq_slice _ 17 20 (by omega), substring_to_end, and_self]

/-- Witness of C11: the full info reply gives `DECAGON`, `5TM`, `365`, `A12`, with or
without blanks around the line. -/
theorem info_reply_columns_witness :
    (SDI12Sensors.getSensorInfo SDI12Sensors.identified).1 = true ∧
    (SDI12Sensors.getSensorInfo SDI12Sensors.identified).2.sensorVendor = "DECAGON".toList ∧
    (SDI12Sensors.getSensorInfo SDI12Sensors.identified).2.sensorModel = "5TM".toList ∧
    (SDI12Sensors.getSensorInfo SDI12Sensors.identified).2.sensorVersion = "365".toList ∧
    (SDI12Sensors.getSensorInfo SDI12Sensors.identified).2.sensorSerialNumber = "A12".toList ∧
    (SDI12Sensors.getSensorInfo SDI12Sensors.identifiedPadded).1 = true ∧
    (SDI12Sensors.getSensorInfo SDI12Sensors.identifiedPadded).2.sensorVendor
      = "DECAGON".toList ∧
    (SDI12Sensors.getSensorInfo SDI12Sensors.identifiedPadded).2.sensorModel = "5TM".toList ∧
    (SDI12Sensors.getSensorInfo SDI12Sensors.identifiedPadded).2.sensorVersion
      = "365".toList ∧
    (SDI12Sensors.getSensorInfo SDI12Sensors.identifiedPadded).2.sensorSerialNumber
      = "A12".toList := by
  obtain ⟨h1, h2, h3, h4, h5, h6, h7, h8, h9, h10⟩ :=
    info_reply_columns SDI12Sensors.identified SDI12Sensors.identifiedPadded 0
      [' ', ' '] ['\r'] (by decide) (by decide) (by decide) (by decide) rfl (by decide)
      (by decide) (by decide) (by decide)
  have e2 : (SDI12Sensors.getSensorInfo SDI12Sensors.identified).2.sensorVendor
      = "DECAGON".toList := by rw [h2]; decide
  have e3 : (SDI12Sensors.getSensorInfo SDI12Sensors.identified).2.sensorModel
      = "5TM".toList := by rw [h3]; decide
  have e4 : (SDI12Sensors.getSensorInfo SDI12Sensors.identified).2.sensorVersion
      = "365".toList := by rw [h4]; decide
  have e5 : (SDI12Sensors.getSensorInfo SDI12Sensors.identified).2.sensorSerialNumber
      = "A12".toList := by rw [h5]; decide
  exact ⟨h1, e2, e3, e4, e5, h6, h7.trans e2, h8.trans e3, h9.trans e4, h10.trans e5⟩

/-- C12: when the sensor does not acknowledge, or acknowledges and sends an info reply
whose trimmed text has fewer than 2 characters, `getSensorInfo` returns false and vendor,
model, version and serial are what they were before the call. -/
theorem info_failure_keeps_identity (s : SDI12Sensors)
    (h : (∀ i, i < 5 →
        ¬ SDI12Sensors.acknowledges s.SDI12address (SDI12Sensors.reply s.SDI12Internal i)) ∨
      ∃ k, k < 5 ∧
        (∀ i, i < k →
          ¬ SDI12Sensors.acknowledges s.SDI12address (SDI12Sensors.reply s.SDI12Internal i)) ∧
        SDI12Sensors.acknowledges s.SDI12address (SDI12Sensors.reply s.SDI12Internal k) ∧
        (trim (SDI12Sensors.reply s.SDI12Internal (k + 1))).length < 2) :
    (SDI12Sensors.getSensorInfo s).1 = false ∧
    (SDI12Sensors.getSensorInfo s).2.sensorVendor = s.sensorVendor ∧
    (SDI12Sensors.getSensorInfo s).2.sensorModel = s.sensorModel ∧
    (SDI12Sensors.getSensorInfo s).2.sensorVersion = s.sensorVersion ∧
    (SDI12Sensors.getSensorInfo s).2.sensorSerialNumber = s.sensorSerialNumber := by
  rcases h with hnone | ⟨k, hk, hrej, hack, hlen⟩
  · obtain ⟨k', hk1, hk5, _, h⟩ := SDI12Sensors.info_spec s
    rcases h with ⟨_, _, heq⟩ | ⟨hack', _⟩ | ⟨hack', _⟩
    · rw [heq]; exact ⟨rfl, rfl, rfl, rfl, rfl⟩
    · exact absurd hack' (hnone _ (by omega))
    · exact absurd hack' (hnone _ (by omega))
  · rw [(SDI12Sensors.info_of_first_ack s k hk hrej hack).1 (by omega)]
    exact ⟨rfl, rfl, rfl, rfl, rfl⟩

/-- Witness of C12, scenario E: an info reply of length 1 after the acknowledgement
leaves the four fields of a fresh object empty. -/
theorem info_failure_keeps_identity_witness :
    (trim (SDI12Sensors.reply SDI12Sensors.scenarioE.SDI12Internal 1)).length = 1 ∧
    (SDI12Sensors.getSensorInfo SDI12Sensors.scenarioE).1 = false ∧
    (SDI12Sensors.getSensorInfo SDI12Sensors.scenarioE).2.sensorVendor = [] ∧
    (SDI12Sensors.getSensorInfo SDI12Sensors.scenarioE).2.sensorModel = [] ∧
    (SDI12Sensors.getSensorInfo SDI12Sensors.scenarioE).2.sensorVersion = [] ∧
    (SDI12Sensors.getSensorInfo SDI12Sensors.scenarioE).2.sensorSerialNumber = [] :=
  ⟨by decide, info_failure_keeps_identity SDI12Sensors.scenarioE
    (Or.inr ⟨0, by decide, by decide, by decide, by decide⟩)⟩

/-- C19: when the sensor acknowledges and the trimmed info reply `r` has between 2 and 19
characters, `getSensorInfo` returns true and sets vendor, model and version to the trims of
the columns 3-10, 11-16 and 17-19 cut at the length of `r`, and serial to the empty
string; with 2 or 3 characters all four fields are empty. -/
theorem info_short_reply_accepted (s : SDI12Sensors) (k : Nat) (hk : k < 5)
    (hrej : ∀ i, i < k →
      ¬ SDI12Sensors.acknowledges s.SDI12address (SDI12Sensors.reply s.SDI12Internal i))
    (hack : SDI12Sensors.acknowledges s.SDI12address (SDI12Sensors.reply s.SDI12Internal k))
    (hlo : 2 ≤ (trim (SDI12Sensors.reply s.SDI12Internal (k + 1))).length)
    (hhi : (trim (SDI12Sensors.reply s.SDI12Internal (k + 1))).length ≤ 19) :
    (SDI12Sensors.getSensorInfo s).1 = true ∧
    (SDI12Sensors.getSensorInfo s).2.sensorVendor
      = trim (((trim (SDI12Sensors.reply s.SDI12Internal (k + 1))).take
          (min 11 (trim (SDI12Sensors.reply s.SDI12Internal (k + 1))).length)).drop 3) ∧
    (SDI12Sensors.getSensorInfo s).2.sensorModel
      = trim (((trim (SDI12Sensors.reply s.SDI12Internal (k + 1))).take
          (min 17 (trim (SDI12Sensors.reply s.SDI12Internal (k + 1))).length)).drop 11) ∧
    (SDI12Sensors.getSensorInfo s).2.sensorVersion
      = trim (((trim (SDI12Sensors.reply s.SDI12Internal (k + 1))).take
          (min 20 (trim (SDI12Sensors.reply s.SDI12Internal (k + 1))).length)).drop 17) ∧
    (SDI12Sensors.getSensorInfo s).2.sensorSerialNumber = [] ∧
    ((trim (SDI12Sensors.reply s.SDI12Internal (k + 1))).length ≤ 3 →
      (SDI12Sensors.getSensorInfo s).2.sensorVendor = [] ∧
      (SDI12Sensors.getSensorInfo s).2.sensorModel = [] ∧
      (SDI12Sensors.getSensorInfo s).2.sensorVersion = []) := by
  have h1 := (SDI12Sensors.info_of_first_ack s k hk hrej hack).2 (by omega)
  have hmin : ∀ (r : AString) (b : Nat), r.take (min b r.length) = r.take b := by
    intro r b
    rw [List.take_eq_take]
    simp
  rw [h1]
  simp only [substring_eq_slice _ 3 11 (by omega), substring_eq_slice _ 11 17 (by omega),
    substring_eq_slice _ 17 20 (by omega), substring_to_end, hmin, true_and]
  refine ⟨?_, ?_⟩
  · rw [List.drop_eq_nil_of_le (by omega)]; rfl
  · intro h3
    have e : ∀ a b, 3 ≤ a →
        ((trim (SDI12Sensors.reply s.SDI12Internal (k + 1))).take b).drop a = [] := by
      intro a b ha
      apply List.drop_eq_nil_of_le
      rw [List.length_take]
      omega
    rw [e 3 11 (by omega), e 11 17 (by omega), e 17 20 (by omega)]
    exact ⟨rfl, rfl, rfl⟩

/-- Witness of C19: the info reply `013` is accepted and leaves all four fields empty. -/
theorem info_short_reply_accepted_witness :
    (trim (SDI12Sensors.reply SDI12Sensors.tersely.SDI12Internal 1)).length = 3 ∧
    (SDI12Sensors.getSensorInfo SDI12Sensors.tersely).1 = true ∧
    (SDI12Sensors.getSensorInfo SDI12Sensors.tersely).2.sensorVendor = [] ∧
    (SDI12Sensors.getSensorInfo SDI12Sensors.tersely).2.sensorModel = [] ∧
    (SDI12Sensors.getSensorInfo SDI12Sensors.tersely).2.sensorVersion = [] ∧
    (SDI12Sensors.getSensorInfo SDI12Sensors.tersely).2.sensorSerialNumber = [] := by
  obtain ⟨h1, _, _, _, h5, h6⟩ :=
    info_short_reply_accepted SDI12Sensors.tersely 0 (by decide) (by decide) (by decide)
      (by decide) (by decide)
  obtain ⟨e1, e2, e3⟩ := h6 (by decide)
  exact ⟨by decide, h1, e1, e2, e3, h5⟩

/-! ## The ranging driver: the result sink, the drain loop and the wake -/

/-- C13: every call of `addSingleMeasurementResult` that gets past the drain loop, with a
measurement in flight or without, ends with one call of `verifyAndAddMeasurementResult`
at `HRXL_VAR_NUM`: it is the last call of the method, no other call of the method goes
to the sink, and its value is -9999 or an acceptable reading, never a rejected token. -/
theorem sonar_sink_called_once_at_end (fuel : Nat) (s : MaxBotixSonar)
    (hbacklog : s.stream.rx.length < 256) (hfuel : s.stream.rx.length < fuel) :
    ∃ (b : Bool) (s' : MaxBotixSonar) (t : List SonarEvent) (res : Int),
      MaxBotixSonar.addSingleMeasurementResult fuel s = some (b, s') ∧
      s'.trace = s.trace ++ t
        ++ [SonarEvent.verifyAndAddMeasurementResult s.HRXL_VAR_NUM res] ∧
      MaxBotixSonar.sinkCalls t = [] ∧
      MaxBotixSonar.sinkCalls s'.trace
        = MaxBotixSonar.sinkCalls s.trace ++ [(s.HRXL_VAR_NUM, res)] ∧
      (res = -9999 ∨ MaxBotixSonar.acceptable res) := by
  obtain ⟨s2, hd, d1, d2, d3, d4, d5, d6, d7, d8⟩ :=
    MaxBotixSonar.drain_step fuel s hbacklog hfuel
  have hdrain : MaxBotixSonar.sinkCalls
      (SonarEvent.available :: List.replicate s.stream.rx.length SonarEvent.read) = [] := by
    have := (MaxBotixSonar.replicate_read_facts s.stream.rx.length).2
    simpa [MaxBotixSonar.sinkCalls] using this
  have hsink : ∀ (u : List SonarEvent) (res : Int), MaxBotixSonar.sinkCalls u = [] →
      MaxBotixSonar.sinkCalls
        (s.trace ++ u ++ [SonarEvent.verifyAndAddMeasurementResult s.HRXL_VAR_NUM res])
      = MaxBotixSonar.sinkCalls s.trace ++ [(s.HRXL_VAR_NUM, res)] := by
    intro u res hu
    rw [MaxBotixSonar.sinkCalls_append, MaxBotixSonar.sinkCalls_append, hu, List.append_nil]
    rfl
  rcases Nat.eq_zero_or_pos s.millisMeasurementRequested with h0 | hpos
  · obtain ⟨s', h1, _, _, _, h5, _, _, _, _⟩ :=
      MaxBotixSonar.idle_spec fuel s h0 hbacklog hfuel
    exact ⟨false, s', _, -9999, h1, h5, hdrain, by rw [h5]; exact hsink _ _ hdrain,
      Or.inl rfl⟩
  · obtain ⟨k, _, _, _, _, _, _, _, _, e8, _, e10⟩ :=
      MaxBotixSonar.rangeLoop_spec 25 s2 0 (by omega)
    obtain ⟨t, ht, hts⟩ := MaxBotixSonar.rangeLoop_trace 25 s2 0 (by omega)
    have hfl : s2.millisMeasurementRequested > 0 := by rw [d6]; exact hpos
    have hrun : MaxBotixSonar.addSingleMeasurementResult fuel s
        = some (MaxBotixSonar.finish (MaxBotixSonar.rangeLoop s2 ⟨false, 0, -9999⟩).1
            (MaxBotixSonar.rangeLoop s2 ⟨false, 0, -9999⟩).2) := by
      unfold MaxBotixSonar.addSingleMeasurementResult
      simp only [hd, if_pos hfl]
    have hut : MaxBotixSonar.sinkCalls
        ((SonarEvent.available :: List.replicate s.stream.rx.length SonarEvent.read) ++ t)
        = [] := by
      rw [MaxBotixSonar.sinkCalls_append, hdrain, hts]; rfl
    have htr : (MaxBotixSonar.finish (MaxBotixSonar.rangeLoop s2 ⟨false, 0, -9999⟩).1
        (MaxBotixSonar.rangeLoop s2 ⟨false, 0, -9999⟩).2).2.trace = s.trace
        ++ ((SonarEvent.available :: List.replicate s.stream.rx.length SonarEvent.read) ++ t)
        ++ [SonarEvent.verifyAndAddMeasurementResult s.HRXL_VAR_NUM
            (MaxBotixSonar.rangeLoop s2 ⟨false, 0, -9999⟩).2.result] := by
      simp only [MaxBotixSonar.finish, ht, d4, e8, d8, List.append_assoc]
    refine ⟨(MaxBotixSonar.finish (MaxBotixSonar.rangeLoop s2 ⟨false, 0, -9999⟩).1
        (MaxBotixSonar.rangeLoop s2 ⟨false, 0, -9999⟩).2).1,
      (MaxBotixSonar.finish (MaxBotixSonar.rangeLoop s2 ⟨false, 0, -9999⟩).1
        (MaxBotixSonar.rangeLoop s2 ⟨false, 0, -9999⟩).2).2, _,
      (MaxBotixSonar.rangeLoop s2 ⟨false, 0, -9999⟩).2.result, hrun, htr, hut,
      (congrArg MaxBotixSonar.sinkCalls htr).trans (hsink _ _ hut), ?_⟩
    rcases e10 with ⟨_, _, hacc, hr⟩ | ⟨_, _, _, hr⟩
    · right; rw [hr]; exact hacc
    · left; exact hr

/-- Witness of C13 on scenario C: the one value at the sink is 712, not 500 or 9999. -/
theorem sonar_sink_called_once_at_end_witness :
    MaxBotixSonar.scenarioC.stream.rx.length < 256 ∧
    ∃ (b : Bool) (s' : MaxBotixSonar) (t : List SonarEvent) (res : Int),
      MaxBotixSonar.addSingleMeasurementResult 1 MaxBotixSonar.scenarioC = some (b, s') ∧
      s'.trace = t ++ [SonarEvent.verifyAndAddMeasurementResult 0 res] ∧
      MaxBotixSonar.sinkCalls t = [] ∧
      MaxBotixSonar.sinkCalls s'.trace = [(0, res)] ∧
      (res = -9999 ∨ MaxBotixSonar.acceptable res) := by
  obtain ⟨b, s', t, res, h1, h2, h3, h4, h5⟩ :=
    sonar_sink_called_once_at_end 1 MaxBotixSonar.scenarioC (by decide) (by decide)
  exact ⟨by decide, b, s', t, res, h1, h2, h3, h4, h5⟩

/-- C14 fails on the code: with 256 bytes buffered the drain loop of lines 104-105 is
still running whatever the number of rounds allowed, so the method never returns and
never parses the reading that waits in the stream. -/
theorem sonar_drain_never_ends_at_256 :
    MaxBotixSonar.flooded.stream.available = 256 ∧
    ∀ fuel, MaxBotixSonar.addSingleMeasurementResult fuel MaxBotixSonar.flooded = none := by
  have havail : MaxBotixSonar.flooded.stream.available = 256 := by
    show ((List.replicate 256 0).length : Int) = 256
    rw [List.length_replicate]
    rfl
  refine ⟨havail, ?_⟩
  intro fuel
  unfold MaxBotixSonar.addSingleMeasurementResult
  simp only [havail]
  rw [if_pos (by decide), MaxBotixSonar.drainLoop_stuck 256 (le_refl _) fuel 0 _ (by omega)]

/-- C15: `wake` returns the boolean of the base `Sensor::wake()` and, after it, makes
exactly 6 calls `readStringUntil('\r')`; the lines read are dropped from the stream and
nothing else in the driver depends on them. -/
theorem sonar_wake_drops_six_lines (Sensor_wake : MaxBotixSonar → Bool × MaxBotixSonar)
    (s : MaxBotixSonar) :
    (MaxBotixSonar.wake Sensor_wake s).1 = (Sensor_wake s).1 ∧
    (MaxBotixSonar.wake Sensor_wake s).2 = { (Sensor_wake s).2 with
      stream := { (Sensor_wake s).2.stream with
        lines := (Sensor_wake s).2.stream.lines.drop 6 }
      trace := (Sensor_wake s).2.trace
        ++ List.replicate 6 (SonarEvent.readStringUntil '\r') } := by
  unfold MaxBotixSonar.wake
  exact ⟨rfl, MaxBotixSonar.headerLoop_spec 6 _ 0 rfl⟩

/-- C20: in every call of the ranging driver's `addSingleMeasurementResult` that gets past
the drain loop, the value handed to the sink is -9999 or an acceptable reading, and the
method returns true exactly when that value is not -9999. -/
theorem sonar_return_agrees_with_value (fuel : Nat) (s : MaxBotixSonar)
    (hbacklog : s.stream.rx.length < 256) (hfuel : s.stream.rx.length < fuel) :
    ∃ (b : Bool) (s' : MaxBotixSonar) (res : Int),
      MaxBotixSonar.addSingleMeasurementResult fuel s = some (b, s') ∧
      MaxBotixSonar.sinkCalls s'.trace
        = MaxBotixSonar.sinkCalls s.trace ++ [(s.HRXL_VAR_NUM, res)] ∧
      (res = -9999 ∨ MaxBotixSonar.acceptable res) ∧
      (b = true ↔ res ≠ -9999) := by
  rcases Nat.eq_zero_or_pos s.millisMeasurementRequested with h0 | hpos
  · obtain ⟨s', h1, _, _, _, h5, _, _, _, _⟩ :=
      MaxBotixSonar.idle_spec fuel s h0 hbacklog hfuel
    refine ⟨false, s', -9999, h1, ?_, Or.inl rfl, by simp⟩
    have hr := (MaxBotixSonar.replicate_read_facts s.stream.rx.length).2
    have hdrain : MaxBotixSonar.sinkCalls
        (SonarEvent.available :: List.replicate s.stream.rx.length SonarEvent.read) = [] := by
      simpa [MaxBotixSonar.sinkCalls] using hr
    rw [h5, MaxBotixSonar.sinkCalls_append, MaxBotixSonar.sinkCalls_append, hdrain,
      List.append_nil]
    rfl
  · obtain ⟨b, s', k, res, h1, _, _, h4, _, _, _, h8, _, _⟩ :=
      MaxBotixSonar.inflight_spec fuel s hpos hbacklog hfuel
    refine ⟨b, s', res, h1, h4, ?_, ?_⟩
    · rcases h8 with ⟨_, hacc, hr⟩ | ⟨_, _, _, hr⟩
      · right; rw [hr]; exact hacc
      · left; exact hr
    · rcases h8 with ⟨hb, hacc, hr⟩ | ⟨hb, _, _, hr⟩
      · rw [hb, hr]
        have : MaxBotixSonar.token s.stream (k - 1) ≠ -9999 := by
          intro h
          rw [h] at hacc
          exact absurd hacc (by decide)
        simp [this]
      · rw [hb, hr]; simp

/-- Witness of C20 on scenario D: 25 rejected tokens, -9999 at the sink, false returned. -/
theorem sonar_return_agrees_with_value_witness :
    MaxBotixSonar.scenarioD.stream.rx.length < 256 ∧
    ∃ (b : Bool) (s' : MaxBotixSonar) (res : Int),
      MaxBotixSonar.addSingleMeasurementResult 1 MaxBotixSonar.scenarioD = some (b, s') ∧
      MaxBotixSonar.sinkCalls s'.trace = [(0, res)] ∧
      (res = -9999 ∨ MaxBotixSonar.acceptable res) ∧
      (b = true ↔ res ≠ -9999) := by
  obtain ⟨b, s', res, h1, h2, h3, h4⟩ :=
    sonar_return_agrees_with_value 1 MaxBotixSonar.scenarioD (by decide) (by decide)
  exact ⟨by decide, b, s', res, h1, h2, h3, h4⟩

/-! ## The SDI-12 driver: the address, the time stamp and the wait for data -/

/-- C16: the constructor taking an `int` in 0..9 stores the ASCII digit of that number,
the one taking a `char` stores it unchanged, the one taking a string stores its first
character; so a digit or letter given in any of the three ways is the stored address. -/
theorem address_is_normalised (base : SDI12Sensors) :
    (∀ n : Int, 0 ≤ n → n ≤ 9 →
      (SDI12Sensors.ofInt base n).SDI12address = Nat.digitChar n.toNat ∧
      ((SDI12Sensors.ofInt base n).SDI12address.toNat : Int) = n + ('0'.toNat : Int) ∧
      (SDI12Sensors.ofInt base n).SDI12address.isDigit = true) ∧
    (∀ c : Char, (SDI12Sensors.ofChar base c).SDI12address = c) ∧
    (∀ (c : Char) (rest : AString), (SDI12Sensors.ofString base (c :: rest)).SDI12address = c) ∧
    (∀ (c : Char) (rest : AString), c.isAlphanum = true →
      (SDI12Sensors.ofChar base c).SDI12address.isAlphanum = true ∧
      (SDI12Sensors.ofString base (c :: rest)).SDI12address.isAlphanum = true) := by
  refine ⟨?_, fun _ => rfl, fun _ _ => rfl, fun c rest h => ⟨h, h⟩⟩
  intro n h0 h9
  simp only [SDI12Sensors.ofInt]
  interval_cases n <;> decide

/-- Witness of C16: the number 7, the character `a` and the string `b3` give the
addresses `7`, `a` and `b`. -/
theorem address_is_normalised_witness :
    (SDI12Sensors.ofInt SDI12Sensors.silentSensor 7).SDI12address = '7' ∧
    (SDI12Sensors.ofChar SDI12Sensors.silentSensor 'a').SDI12address = 'a' ∧
    (SDI12Sensors.ofString SDI12Sensors.silentSensor ['b', '3']).SDI12address = 'b' := by
  obtain ⟨h1, h2, h3, _⟩ := address_is_normalised SDI12Sensors.silentSensor
  exact ⟨(h1 7 (by decide) (by decide)).1, h2 'a', h3 'b' ['3']⟩

/-- C17 fails on the code: when the clock reads 0 at the call, here at the rollover of
the 32-bit counter, `startSingleMeasurement` returns true with the time stamp 0, and the
`addSingleMeasurementResult` that follows takes the branch of no measurement in flight:
it returns false and changes nothing. -/
theorem start_at_clock_zero_is_not_in_flight :
    (SDI12Sensors.startSingleMeasurement SDI12Sensors.rollover).1 = true ∧
    (SDI12Sensors.startSingleMeasurement SDI12Sensors.rollover).2.millisMeasurementRequested
      = 0 ∧
    ∀ fuel, SDI12Sensors.addSingleMeasurementResult fuel
        (SDI12Sensors.startSingleMeasurement SDI12Sensors.rollover).2
      = some (false, (SDI12Sensors.startSingleMeasurement SDI12Sensors.rollover).2) := by
  obtain ⟨h1, h2, _, _, _⟩ := SDI12Sensors.start_of_first_ack SDI12Sensors.rollover 0
    (by decide) (by decide) (by decide) (by decide)
  have hz : (SDI12Sensors.startSingleMeasurement SDI12Sensors.rollover).2.millisMeasurementRequested
      = 0 := by
    rw [h2]; decide
  refine ⟨h1, hz, ?_⟩
  intro fuel
  unfold SDI12Sensors.addSingleMeasurementResult
  rw [if_neg (by rw [hz]; decide)]

/-- C18: the wait loop goes on exactly while fewer than 3 bytes are there and the
difference of the clock readings modulo 2^32 is below 1500; with true times that have
advanced by less than 2^32 ms since the start, that difference is the time gone by, and
the method leaves the loop at its round `j`, the first at which 3 bytes are there or
1500 ms have gone by, whatever the start time is modulo 2^32. -/
theorem wait_ends_at_first_ready_or_late_round (fuel : Nat) (s : SDI12Sensors) (j : Nat)
    (hflight : 0 < s.millisMeasurementRequested) (hj : j < fuel)
    (hclock : ∀ i, i ≤ j → s.clock s.clockCalls ≤ s.clock (s.clockCalls + 1 + i) ∧
      s.clock (s.clockCalls + 1 + i) - s.clock s.clockCalls < 2 ^ 32)
    (hbefore : ∀ i, i < j → s.SDI12Internal.avail (s.SDI12Internal.polls + i) < 3 ∧
      s.clock (s.clockCalls + 1 + i) - s.clock s.clockCalls < 1500)
    (hat : 3 ≤ s.SDI12Internal.avail (s.SDI12Internal.polls + j) ∨
      1500 ≤ s.clock (s.clockCalls + 1 + j) - s.clock s.clockCalls) :
    (∀ i, SDI12Sensors.keepsWaiting (SDI12Sensors.millis s).2 (SDI12Sensors.millis s).1 i ↔
      (s.SDI12Internal.avail (s.SDI12Internal.polls + i) < 3 ∧
        (s.clock (s.clockCalls + 1 + i) % 2 ^ 32 + 2 ^ 32 - s.clock s.clockCalls % 2 ^ 32)
          % 2 ^ 32 < 1500)) ∧
    (∀ i, i ≤ j →
      (SDI12Sensors.keepsWaiting (SDI12Sensors.millis s).2 (SDI12Sensors.millis s).1 i ↔
        (s.SDI12Internal.avail (s.SDI12Internal.polls + i) < 3 ∧
          s.clock (s.clockCalls + 1 + i) - s.clock s.clockCalls < 1500))) ∧
    ∃ s' : SDI12Sensors,
      SDI12Sensors.addSingleMeasurementResult fuel s = some (true, s') ∧
      s'.SDI12Internal.polls = s.SDI12Internal.polls + (j + 1) := by
  have hdef : ∀ i,
      SDI12Sensors.keepsWaiting (SDI12Sensors.millis s).2 (SDI12Sensors.millis s).1 i ↔
      (s.SDI12Internal.avail (s.SDI12Internal.polls + i) < 3 ∧
        (s.clock (s.clockCalls + 1 + i) % 2 ^ 32 + 2 ^ 32 - s.clock s.clockCalls % 2 ^ 32)
          % 2 ^ 32 < 1500) := fun _ => Iff.rfl
  have harith : ∀ a b : Nat, a ≤ b → b - a < 2 ^ 32 →
      (b % 2 ^ 32 + 2 ^ 32 - a % 2 ^ 32) % 2 ^ 32 = b - a := by
    intro a b hab hlt
    have h32 : (2 : Nat) ^ 32 = 4294967296 := by norm_num
    rw [h32] at hlt ⊢
    omega
  have htrue : ∀ i, i ≤ j →
      (SDI12Sensors.keepsWaiting (SDI12Sensors.millis s).2 (SDI12Sensors.millis s).1 i ↔
        (s.SDI12Internal.avail (s.SDI12Internal.polls + i) < 3 ∧
          s.clock (s.clockCalls + 1 + i) - s.clock s.clockCalls < 1500)) := by
    intro i hi
    rw [hdef, harith _ _ (hclock i hi).1 (hclock i hi).2]
  refine ⟨hdef, htrue, _, SDI12Sensors.add_spec fuel s j hflight hj ?_ ?_, rfl⟩
  · intro i hi
    exact (htrue i (by omega)).mpr (hbefore i hi)
  · intro h
    have := (htrue j (le_refl j)).mp h
    omega

/-- Witness of C18: the data command goes out 500 ms before the rollover, no data come
and the clock is read every 600 ms; the loop ends at its third round, 1800 ms later. -/
theorem wait_ends_at_first_ready_or_late_round_witness :
    SDI12Sensors.nearRollover.clock SDI12Sensors.nearRollover.clockCalls = 2 ^ 32 - 500 ∧
    ∃ s' : SDI12Sensors,
      SDI12Sensors.addSingleMeasurementResult 3 SDI12Sensors.nearRollover = some (true, s') ∧
      s'.SDI12Internal.polls = 3 := by
  obtain ⟨_, _, s', h1, h2⟩ :=
    wait_ends_at_first_ready_or_late_round 3 SDI12Sensors.nearRollover 2 (by decide)
      (by decide) (by decide) (by decide) (by decide)
  exact ⟨by decide, s', h1, h2⟩

/-! ## The status byte: the bits the drivers leave alone -/

namespace SDI12Sensors

/-- The two status updates of the drivers change no bit of the byte but bits 5 and 6. -/
theorem status_frame (x i : Nat) (h5 : i ≠ 5) (h6 : i ≠ 6) (h8 : i < 8) :
    (statusAnd (statusOr x 0b00100000) 0b10111111).testBit i = x.testBit i ∧
    (statusOr (statusAnd x 0b11011111) 0b01000000).testBit i = x.testBit i := by
  have h256 : (256 : Nat) = 2 ^ 8 := by norm_num
  unfold statusAnd statusOr
  simp only [h256, Nat.testBit_mod_two_pow, Nat.testBit_land, Nat.testBit_lor]
  have c32 : Nat.testBit 32 i = false := by interval_cases i <;> first | decide | omega
  have c191 : Nat.testBit 191 i = true := by interval_cases i <;> first | decide | omega
  have c223 : Nat.testBit 223 i = true := by interval_cases i <;> first | decide | omega
  have c64 : Nat.testBit 64 i = false := by interval_cases i <;> first | decide | omega
  simp [c32, c191, c223, c64, h8]

end SDI12Sensors

/-- C21: `startSingleMeasurement` and `addSingleMeasurementResult` of the SDI-12 driver and
`addSingleMeasurementResult` of the ranging driver leave every bit of the status byte
other than bits 5 and 6, that is bits 0-4 and bit 7, as it was before the call, whatever
the outcome; the result sink is a call that does not touch the status.  The two
retrievals are taken where their waiting loops end. -/
theorem status_bits_outside_5_and_6_kept (s t : SDI12Sensors) (m : MaxBotixSonar)
    (fuel j i : Nat) (h5 : i ≠ 5) (h6 : i ≠ 6) (h8 : i < 8) (hj : j < fuel)
    (hstop : ¬ SDI12Sensors.keepsWaiting (SDI12Sensors.millis t).2 (SDI12Sensors.millis t).1 j)
    (hbacklog : m.stream.rx.length < 256) (hfuel : m.stream.rx.length < fuel) :
    (SDI12Sensors.startSingleMeasurement s).2.sensorStatus.testBit i = s.sensorStatus.testBit i ∧
    (∃ r, SDI12Sensors.addSingleMeasurementResult fuel t = some r ∧
      r.2.sensorStatus.testBit i = t.sensorStatus.testBit i) ∧
    (∃ r, MaxBotixSonar.addSingleMeasurementResult fuel m = some r ∧
      r.2.sensorStatus.testBit i = m.sensorStatus.testBit i) := by
  refine ⟨?_, ?_, ?_⟩
  · obtain ⟨k, _, _, _, h⟩ := SDI12Sensors.start_spec s
    rcases h with ⟨_, _, heq⟩ | ⟨_, _, heq⟩ | ⟨_, _, heq⟩ <;>
      (rw [heq]; exact (SDI12Sensors.status_frame s.sensorStatus i h5 h6 h8).1)
  · rcases Nat.eq_zero_or_pos t.millisMeasurementRequested with h0 | hpos
    · refine ⟨(false, t), ?_, rfl⟩
      unfold SDI12Sensors.addSingleMeasurementResult
      rw [if_neg (by omega)]
    · obtain ⟨j', hj', hkeep, hstop'⟩ := SDI12Sensors.first_stop
        (fun n => SDI12Sensors.keepsWaiting (SDI12Sensors.millis t).2 (SDI12Sensors.millis t).1 n)
        fuel j hj hstop
      exact ⟨_, SDI12Sensors.add_spec fuel t j' hpos hj' hkeep hstop',
        (SDI12Sensors.status_frame t.sensorStatus i h5 h6 h8).2⟩
  · have hb := (SDI12Sensors.status_frame m.sensorStatus i h5 h6 h8).2
    rcases Nat.eq_zero_or_pos m.millisMeasurementRequested with h0 | hpos
    · obtain ⟨s', h1, _, _, _, _, _, _, h8', _⟩ :=
        MaxBotixSonar.idle_spec fuel m h0 hbacklog hfuel
      exact ⟨_, h1, by rw [h8']; exact hb⟩
    · obtain ⟨b, s', k, res, h1, _, _, _, _, _, _, _, _, h10⟩ :=
        MaxBotixSonar.inflight_spec fuel m hpos hbacklog hfuel
      exact ⟨_, h1, by rw [h10]; exact hb⟩

/-- Witness of C21 at bit 7, on drivers whose status byte has bits 0-4 and 7 set besides
bit 5: the silent sensor for the start, scenario B for the SDI-12 retrieval, scenario C
for the sonar. -/
theorem status_bits_outside_5_and_6_kept_witness :
    ¬ SDI12Sensors.keepsWaiting
      (SDI12Sensors.millis { SDI12Sensors.scenarioB with sensorStatus := 0b10111111 }).2
      (SDI12Sensors.millis { SDI12Sensors.scenarioB with sensorStatus := 0b10111111 }).1 0 ∧
    ({ MaxBotixSonar.scenarioC with sensorStatus := 0b10111111 } : MaxBotixSonar).stream.rx.length
      < 256 ∧
    (SDI12Sensors.startSingleMeasurement
      { SDI12Sensors.silentSensor with sensorStatus := 0b10011111 }).2.sensorStatus.testBit 7
      = true ∧
    (∃ r, SDI12Sensors.addSingleMeasurementResult 1
        { SDI12Sensors.scenarioB with sensorStatus := 0b10111111 } = some r ∧
      r.2.sensorStatus.testBit 7 = true) ∧
    (∃ r, MaxBotixSonar.addSingleMeasurementResult 1
        { MaxBotixSonar.scenarioC with sensorStatus := 0b10111111 } = some r ∧
      r.2.sensorStatus.testBit 7 = true) :=
  ⟨by decide, by decide,
    status_bits_outside_5_and_6_kept
      { SDI12Sensors.silentSensor with sensorStatus := 0b10011111 }
      { SDI12Sensors.scenarioB with sensorStatus := 0b10111111 }
      { MaxBotixSonar.scenarioC with sensorStatus := 0b10111111 }
      1 0 7 (by decide) (by decide) (by decide) (by decide) (by decide) (by decide) (by decide)⟩
